import Mathlib

/-!
Verification of the grid track generation subsystem
(`src/compute/grid/explicit_grid.rs`): the Explicit-Track-Count Resolver
(`compute_explicit_grid_size_in_axis`) and the Track Materializer
(`initialize_grid_tracks`).

Numeric values (`f32` in the source) are embedded as rationals `ℚ`;
`u16` counts are embedded as `ℕ`.  The style data model (track sizing
functions, dimensions, repetitions) lives in `crate::style`, outside the
provided sources, and is modelled from the specification's data model
(§3); the two functions above and `track_definite_value` are translated
directly from the source.
-/

/-- Modelled from the spec: an opaque calc-expression resolver
`fn(id, basis) -> number` (§4.1 contract); the source passes it as
`resolve_calc_value: impl Fn(u64, f32) -> f32`. -/
def CalcResolver : Type := ℕ → ℚ → ℚ

/-- Modelled from the spec: a length-or-percentage style value (the source's
`crate::style::LengthPercentage`, not under `src/`): a fixed length, a
percentage of a reference size, or an opaque calc expression. -/
inductive LengthPercentage where
  | Length (value : ℚ)
  | Percent (value : ℚ)
  | Calc (id : ℕ)
deriving DecidableEq, Repr

/-- Modelled from the spec: resolving a `LengthPercentage` against an optional
reference size (the source's `MaybeResolve`): a fixed length always resolves,
a percentage or calc expression only when the reference size is present. -/
def LengthPercentage.maybe_resolve (lp : LengthPercentage) (basis : Option ℚ)
    (calcResolver : CalcResolver) : Option ℚ :=
  match lp with
  | .Length value => some value
  | .Percent value => basis.map (fun b => value * b)
  | .Calc id => basis.map (fun b => calcResolver id b)

/-- Modelled from the spec: resolving a gap value, defaulting to zero when it
cannot be resolved (the source's `ResolveOrZero`). -/
def LengthPercentage.resolve_or_zero (lp : LengthPercentage) (basis : Option ℚ)
    (calcResolver : CalcResolver) : ℚ :=
  (lp.maybe_resolve basis calcResolver).getD 0

/-- Modelled from the spec: a style dimension (the source's
`crate::style::Dimension`): a concrete `LengthPercentage` value or `auto`. -/
inductive Dimension where
  | Length (value : ℚ)
  | Percent (value : ℚ)
  | Calc (id : ℕ)
  | Auto
deriving DecidableEq, Repr

/-- Modelled from the spec: resolving a `Dimension` against an optional
reference size; `auto` never resolves. -/
def Dimension.maybe_resolve (d : Dimension) (basis : Option ℚ)
    (calcResolver : CalcResolver) : Option ℚ :=
  match d with
  | .Length value => some value
  | .Percent value => basis.map (fun b => value * b)
  | .Calc id => basis.map (fun b => calcResolver id b)
  | .Auto => none

/-- Modelled from the spec: the minimum component of a sizing function
(§3: fixed length, percentage, `auto`, intrinsic-content keywords); the
source's `MinTrackSizingFunction`. -/
inductive MinTrackSizingFunction where
  | Fixed (lp : LengthPercentage)
  | MinContent
  | MaxContent
  | Auto
deriving DecidableEq, Repr

/-- Modelled from the spec: the maximum component of a sizing function
(§3: the same set as the minimum, plus a flexible fr factor and
fit-content); the source's `MaxTrackSizingFunction`. -/
inductive MaxTrackSizingFunction where
  | Fixed (lp : LengthPercentage)
  | MinContent
  | MaxContent
  | FitContent (lp : LengthPercentage)
  | Auto
  | Fraction (value : ℚ)
deriving DecidableEq, Repr

/-- Modelled from the spec: a component is definite if it resolves to a
concrete number given a (possibly absent) reference size, independent of
content measurement (§3); only a fixed component is definite. -/
def MinTrackSizingFunction.definite_value (m : MinTrackSizingFunction)
    (parentSize : Option ℚ) (calcResolver : CalcResolver) : Option ℚ :=
  match m with
  | .Fixed lp => lp.maybe_resolve parentSize calcResolver
  | _ => none

/-- Modelled from the spec: definite value of a maximum component; intrinsic
keywords, `auto`, fit-content and fr factors are not definite. -/
def MaxTrackSizingFunction.definite_value (m : MaxTrackSizingFunction)
    (parentSize : Option ℚ) (calcResolver : CalcResolver) : Option ℚ :=
  match m with
  | .Fixed lp => lp.maybe_resolve parentSize calcResolver
  | _ => none

/-- Modelled from the spec: whether a minimum component is a fixed
(length/percentage/calc) value, i.e. not an unconstrained intrinsic
function (§4.1 step 5). -/
def MinTrackSizingFunction.has_fixed_component : MinTrackSizingFunction → Bool
  | .Fixed _ => true
  | _ => false

/-- Modelled from the spec: whether a maximum component is a fixed
(length/percentage/calc) value. -/
def MaxTrackSizingFunction.has_fixed_component : MaxTrackSizingFunction → Bool
  | .Fixed _ => true
  | _ => false

/-- Modelled from the spec: a sizing function: a minimum and a maximum
component (§3); the source's `NonRepeatedTrackSizingFunction`. -/
structure NonRepeatedTrackSizingFunction where
  min : MinTrackSizingFunction
  max : MaxTrackSizingFunction
deriving DecidableEq, Repr

/-- Modelled from the spec: a sizing function has a fixed component when its
minimum or its maximum does (§4.1 step 5's validity check). -/
def NonRepeatedTrackSizingFunction.has_fixed_component
    (sf : NonRepeatedTrackSizingFunction) : Bool :=
  sf.min.has_fixed_component || sf.max.has_fixed_component

/-- Modelled from the spec: the all-`auto` sizing function (the source's
`NonRepeatedTrackSizingFunction::AUTO` from `TaffyAuto`). -/
def NonRepeatedTrackSizingFunction.AUTO : NonRepeatedTrackSizingFunction :=
  { min := .Auto, max := .Auto }

/-- Modelled from the spec: accessor for the minimum component (the source's
`min_sizing_function()`). -/
def NonRepeatedTrackSizingFunction.min_sizing_function
    (sf : NonRepeatedTrackSizingFunction) : MinTrackSizingFunction := sf.min

/-- Modelled from the spec: accessor for the maximum component (the source's
`max_sizing_function()`). -/
def NonRepeatedTrackSizingFunction.max_sizing_function
    (sf : NonRepeatedTrackSizingFunction) : MaxTrackSizingFunction := sf.max

/-- Modelled from the spec: a repetition kind, one of a fixed count,
auto-fill, or auto-fit (§3); the source's `GridTrackRepetition`. -/
inductive GridTrackRepetition where
  | Count (n : ℕ)
  | AutoFill
  | AutoFit
deriving DecidableEq, Repr

/-- Modelled from the spec: one track sizing template entry, either a single
track or a repetition of an ordered list of sizing functions (§3); the
source's `TrackSizingFunction`. -/
inductive TrackSizingFunction where
  | Single (sf : NonRepeatedTrackSizingFunction)
  | Repeat (rep : GridTrackRepetition) (tracks : List NonRepeatedTrackSizingFunction)
deriving DecidableEq, Repr

/-- Modelled from the spec: whether a template entry is an auto-repetition
(the source's `is_auto_repetition`). -/
def TrackSizingFunction.is_auto_repetition : TrackSizingFunction → Bool
  | .Repeat .AutoFill _ => true
  | .Repeat .AutoFit _ => true
  | _ => false

/-- Modelled from the spec: the per-axis track counts
`{negative_implicit, explicit, positive_implicit}` (§3); the source's
`TrackCounts`. -/
structure TrackCounts where
  negative_implicit : ℕ
  explicit : ℕ
  positive_implicit : ℕ
deriving DecidableEq, Repr

/-- Modelled from the spec: the per-axis style inputs the Resolver reads:
the preferred size, the maximum size and the gap in the relevant axis
(the source reads them through `GridContainerStyle` and `get_abs(axis)`). -/
structure GridAxisStyle where
  size : Dimension
  max_size : Dimension
  gap : LengthPercentage
deriving DecidableEq, Repr

/-- The utility `MaybeMath::maybe_min` from `crate::util` (not under `src/`):
the minimum of a value and an optional value; the value itself when the
option is absent. -/
def maybeMin (x : ℚ) (o : Option ℚ) : ℚ :=
  match o with
  | some r => min x r
  | none => x

/-- Translated from the source (`explicit_grid.rs` lines 106-114): the
definite value of a sizing function — the max component's definite value
combined with the min component's via `maybe_min` when the max is definite,
else the min component's definite value (`unwrap` becomes `getD 0`; the
source relies on one of the two being definite). -/
def track_definite_value (sizing_function : NonRepeatedTrackSizingFunction)
    (parent_size : Option ℚ) (calc_resolver : CalcResolver) : ℚ :=
  let max_size := sizing_function.max.definite_value parent_size calc_resolver
  let min_size := sizing_function.min.definite_value parent_size calc_resolver
  ((max_size.map (fun mx => maybeMin mx min_size)).or min_size).getD 0

/-- Translated from the source (`explicit_grid.rs` lines 13-178): the
Explicit-Track-Count Resolver.  Returns the number of explicit tracks in
one axis, resolving at most one auto-repeated section.  The axis
projection (`get_abs`) is already applied: `style` holds the relevant
axis's size, max-size and gap, and `inner_container_size` the relevant
axis's optional definite inner size. -/
def compute_explicit_grid_size_in_axis (style : GridAxisStyle)
    (template : List TrackSizingFunction) (inner_container_size : Option ℚ)
    (resolve_calc_value : CalcResolver) : ℕ :=
  if template.isEmpty then 0
  else
    let template_has_repetitions_with_zero_tracks := template.any fun track_def =>
      match track_def with
      | .Single _ => false
      | .Repeat _ tracks => tracks.isEmpty
    if template_has_repetitions_with_zero_tracks then 0
    else
      let non_auto_repeating_track_count : ℕ := (template.map fun track_def =>
        match track_def with
        | .Single _ => 1
        | .Repeat (.Count count) tracks => count * tracks.length
        | .Repeat .AutoFill _ => 0
        | .Repeat .AutoFit _ => 0).sum
      let auto_repetition_count : ℕ :=
        (template.filter fun track_def => track_def.is_auto_repetition).length
      let all_track_defs_have_fixed_component := template.all fun track_def =>
        match track_def with
        | .Single sizing_function => sizing_function.has_fixed_component
        | .Repeat _ tracks =>
          tracks.all fun sizing_function => sizing_function.has_fixed_component
      let template_is_valid :=
        auto_repetition_count == 0 ||
          (auto_repetition_count == 1 && all_track_defs_have_fixed_component)
      if !template_is_valid then 0
      else if auto_repetition_count == 0 then non_auto_repeating_track_count
      else
        let repetition_definition : List NonRepeatedTrackSizingFunction :=
          (template.findSome? fun def_ =>
            match def_ with
            | .Single _ => none
            | .Repeat (.Count _) _ => none
            | .Repeat .AutoFill tracks => some tracks
            | .Repeat .AutoFit tracks => some tracks).getD []
        let repetition_track_count := repetition_definition.length
        let style_size_is_definite :=
          (style.size.maybe_resolve inner_container_size resolve_calc_value).isSome
        let style_max_size_is_definite :=
          (style.max_size.maybe_resolve inner_container_size resolve_calc_value).isSome
        let size_is_maximum := style_size_is_definite || style_max_size_is_definite
        let num_repetitions : ℕ :=
          match inner_container_size with
          | none => 1
          | some inner_size =>
            let parent_size : Option ℚ := some inner_size
            let non_repeating_track_used_space : ℚ := (template.map fun track_def =>
              match track_def with
              | .Single sizing_function =>
                track_definite_value sizing_function parent_size resolve_calc_value
              | .Repeat (.Count count) repeated_tracks =>
                ((repeated_tracks.map fun sizing_function =>
                  track_definite_value sizing_function parent_size resolve_calc_value).sum)
                  * (count : ℚ)
              | .Repeat .AutoFill _ => 0
              | .Repeat .AutoFit _ => 0).sum
            let gap_size := style.gap.resolve_or_zero (some inner_size) resolve_calc_value
            let per_repetition_track_used_space : ℚ :=
              (repetition_definition.map fun sizing_function =>
                track_definite_value sizing_function parent_size resolve_calc_value).sum
            let first_repetition_and_non_repeating_tracks_used_space :=
              non_repeating_track_used_space + per_repetition_track_used_space
                + (((non_auto_repeating_track_count + repetition_track_count) - 1 : ℕ) : ℚ)
                  * gap_size
            if first_repetition_and_non_repeating_tracks_used_space > inner_size then 1
            else
              let per_repetition_gap_used_space := (repetition_track_count : ℚ) * gap_size
              let per_repetition_used_space :=
                per_repetition_track_used_space + per_repetition_gap_used_space
              let num_repetition_that_fit := (inner_size
                - first_repetition_and_non_repeating_tracks_used_space)
                / per_repetition_used_space
              if size_is_maximum then (Int.floor num_repetition_that_fit).toNat + 1
              else (Int.ceil num_repetition_that_fit).toNat + 1
        non_auto_repeating_track_count + repetition_track_count * num_repetitions

/-- Modelled from the spec: the kind of a cell of the materialized track
list, a real track or a synthetic gutter (§3); the source's
`GridTrackKind`. -/
inductive GridTrackKind where
  | Track
  | Gutter
deriving DecidableEq, Repr

/-- Modelled from the spec: one cell of the final per-axis track list:
kind, min and max sizing functions and a collapsed flag (§3); the source's
`GridTrack` restricted to the fields this subsystem writes. -/
structure GridTrack where
  kind : GridTrackKind
  min_track_sizing_function : MinTrackSizingFunction
  max_track_sizing_function : MaxTrackSizingFunction
  collapsed : Bool
deriving DecidableEq, Repr

/-- Modelled from the spec: `GridTrack::new` — an uncollapsed track with the
given sizing functions. -/
def GridTrack.new (minFn : MinTrackSizingFunction) (maxFn : MaxTrackSizingFunction) :
    GridTrack :=
  { kind := .Track, min_track_sizing_function := minFn,
    max_track_sizing_function := maxFn, collapsed := false }

/-- Modelled from the spec: `GridTrack::gutter` — an uncollapsed gutter sized
to the gap. -/
def GridTrack.gutter (size : LengthPercentage) : GridTrack :=
  { kind := .Gutter, min_track_sizing_function := .Fixed size,
    max_track_sizing_function := .Fixed size, collapsed := false }

/-- Modelled from the spec: `GridTrack::collapse` — mark a track or gutter
collapsed and enforce a zero-equivalent size (§8: collapsed gutters have
"enforced zero-equivalent size regardless of requested gap"; the source's
own test expects the collapsed boundary gutters to carry zero sizing
functions despite a 20px gap). -/
def GridTrack.collapse (t : GridTrack) : GridTrack :=
  { t with
      collapsed := true
      min_track_sizing_function := .Fixed (.Length 0)
      max_track_sizing_function := .Fixed (.Length 0) }

/-- A list built by pushing, for each element of `l` in order, first `f a`
then `g a`: the shape of every track-plus-trailing-gutter loop of the
Materializer. -/
def pairBlocks (f g : ℕ → GridTrack) : List ℕ → List GridTrack
  | [] => []
  | a :: rest => f a :: g a :: pairBlocks f g rest

/-- Translated from the source (`explicit_grid.rs` lines 275-286): push
`count` implicit tracks, each taken from the (already offset) cyclic
iterator and followed by a gutter.  The iterator is embedded as the
function giving its `i`-th element. -/
def create_implicit_tracks (count : ℕ)
    (auto_tracks_iter : ℕ → NonRepeatedTrackSizingFunction)
    (gap : LengthPercentage) : List GridTrack :=
  pairBlocks
    (fun i => GridTrack.new (auto_tracks_iter i).min_sizing_function
      (auto_tracks_iter i).max_sizing_function)
    (fun _ => GridTrack.gutter gap)
    (List.range count)

/-- Translated from the source (`explicit_grid.rs` line 237): the auto-repeat
occurrence count `counts.explicit - (track_template.len() as u16 - 1)`
(natural subtraction; the source value is exact whenever
`counts.explicit ≥ template_length - 1`). -/
def auto_repeated_track_count (counts : TrackCounts) (template_length : ℕ) : ℕ :=
  counts.explicit - (template_length - 1)

/-- The number of tracks the Materializer emits for one template entry: one
for a `Single`, `len * count` for a fixed repetition, and the auto-repeat
occurrence count for an auto-repetition (nothing when its inner list is
empty, since cycling an empty iterator yields nothing). -/
def entryTrackCount (counts : TrackCounts) (template_length : ℕ) :
    TrackSizingFunction → ℕ
  | .Single _ => 1
  | .Repeat (.Count count) repeated_tracks => repeated_tracks.length * count
  | .Repeat .AutoFill repeated_tracks =>
    if repeated_tracks.isEmpty then 0 else auto_repeated_track_count counts template_length
  | .Repeat .AutoFit repeated_tracks =>
    if repeated_tracks.isEmpty then 0 else auto_repeated_track_count counts template_length

/-- Translated from the source (`explicit_grid.rs` lines 236-254): the tracks
and gutters generated for one auto-repetition entry, cycling the inner list
`auto_repeated_track_count` times; when the entry is an auto-fit repetition
and `track_has_items` is false at the running explicit track index, both the
track and its trailing gutter are collapsed. -/
def autoRepeatEntryTracks (is_auto_fit : Bool)
    (repeated_tracks : List NonRepeatedTrackSizingFunction)
    (counts : TrackCounts) (template_length : ℕ) (gap : LengthPercentage)
    (track_has_items : ℕ → Bool) (current_track_index : ℕ) : List GridTrack :=
  if repeated_tracks.isEmpty then []
  else
    pairBlocks
      (fun j =>
        let track_def := repeated_tracks.getD (j % repeated_tracks.length) .AUTO
        let track := GridTrack.new track_def.min_sizing_function
          track_def.max_sizing_function
        if is_auto_fit && !track_has_items (current_track_index + j) then
          track.collapse
        else track)
      (fun j =>
        let gutter := GridTrack.gutter gap
        if is_auto_fit && !track_has_items (current_track_index + j) then
          gutter.collapse
        else gutter)
      (List.range (auto_repeated_track_count counts template_length))

/-- Translated from the source (`explicit_grid.rs` lines 214-257): the tracks
and gutters generated for one template entry, starting at the given running
explicit track index. -/
def entryTracks (counts : TrackCounts) (template_length : ℕ)
    (gap : LengthPercentage) (track_has_items : ℕ → Bool)
    (current_track_index : ℕ) : TrackSizingFunction → List GridTrack
  | .Single sizing_function =>
    [GridTrack.new sizing_function.min_sizing_function
      sizing_function.max_sizing_function,
     GridTrack.gutter gap]
  | .Repeat (.Count count) repeated_tracks =>
    pairBlocks
      (fun j =>
        let sf := repeated_tracks.getD (j % repeated_tracks.length) .AUTO
        GridTrack.new sf.min_sizing_function sf.max_sizing_function)
      (fun _ => GridTrack.gutter gap)
      (List.range (repeated_tracks.length * count))
  | .Repeat .AutoFill repeated_tracks =>
    autoRepeatEntryTracks false repeated_tracks counts template_length gap
      track_has_items current_track_index
  | .Repeat .AutoFit repeated_tracks =>
    autoRepeatEntryTracks true repeated_tracks counts template_length gap
      track_has_items current_track_index

/-- Translated from the source (`explicit_grid.rs` lines 213-258): the
explicit section of the buffer — each template entry's tracks in order, the
running explicit track index advancing by the number of tracks emitted. -/
def explicitTracks (counts : TrackCounts) (template_length : ℕ)
    (gap : LengthPercentage) (track_has_items : ℕ → Bool) :
    List TrackSizingFunction → ℕ → List GridTrack
  | [], _ => []
  | entry :: rest, current_track_index =>
    entryTracks counts template_length gap track_has_items current_track_index entry
      ++ explicitTracks counts template_length gap track_has_items rest
        (current_track_index + entryTrackCount counts template_length entry)

/-- Mark the first element of the buffer collapsed (the source's
`tracks.first_mut().unwrap().collapse()`). -/
def collapseFirst : List GridTrack → List GridTrack
  | [] => []
  | t :: rest => t.collapse :: rest

/-- Mark the last element of the buffer collapsed (the source's
`tracks.last_mut().unwrap().collapse()`). -/
def collapseLast : List GridTrack → List GridTrack
  | [] => []
  | [t] => [t.collapse]
  | t :: rest => t :: collapseLast rest

/-- Translated from the source (`explicit_grid.rs` lines 190-267): the
contents the Materializer pushes into the cleared buffer before the final
collapse of the boundary entries: the leading gutter, the negative implicit
tracks (cycling `auto_tracks` starting at the alignment offset), the
explicit tracks (only when `counts.explicit > 0`), and the positive
implicit tracks (cycling from the start). -/
def initialize_grid_tracks_body (counts : TrackCounts)
    (track_template : List TrackSizingFunction)
    (auto_tracks : List NonRepeatedTrackSizingFunction)
    (gap : LengthPercentage) (track_has_items : ℕ → Bool) : List GridTrack :=
  let cleared : List GridTrack := []
  let withInitialGutter := cleared ++ [GridTrack.gutter gap]
  let negative_implicit_tracks :=
    if counts.negative_implicit > 0 then
      if auto_tracks.isEmpty then
        create_implicit_tracks counts.negative_implicit (fun _ => .AUTO) gap
      else
        let offset := auto_tracks.length - counts.negative_implicit % auto_tracks.length
        create_implicit_tracks counts.negative_implicit
          (fun i => auto_tracks.getD ((offset + i) % auto_tracks.length) .AUTO) gap
    else []
  let current_track_index := counts.negative_implicit
  let explicit_section :=
    if counts.explicit > 0 then
      explicitTracks counts track_template.length gap track_has_items
        track_template current_track_index
    else []
  let positive_implicit_tracks :=
    if auto_tracks.isEmpty then
      create_implicit_tracks counts.positive_implicit (fun _ => .AUTO) gap
    else
      create_implicit_tracks counts.positive_implicit
        (fun i => auto_tracks.getD (i % auto_tracks.length) .AUTO) gap
  withInitialGutter ++ negative_implicit_tracks ++ explicit_section
    ++ positive_implicit_tracks

/-- Translated from the source (`explicit_grid.rs` lines 182-272): the Track
Materializer.  The caller-supplied buffer `tracks` is cleared first
(`tracks.clear()`, so its previous contents are discarded entirely), the
track list is pushed (see `initialize_grid_tracks_body`), and finally the
first and last entries are collapsed. -/
def initialize_grid_tracks (tracks : List GridTrack) (counts : TrackCounts)
    (track_template : List TrackSizingFunction)
    (auto_tracks : List NonRepeatedTrackSizingFunction)
    (gap : LengthPercentage) (track_has_items : ℕ → Bool) : List GridTrack :=
  collapseLast (collapseFirst
    (initialize_grid_tracks_body counts track_template auto_tracks gap
      track_has_items))

/-- The explicit track indices at which one template entry makes the
Materializer consult `track_has_items`: the source's `&&` short-circuits, so
the predicate is consulted exactly at every track generated by an auto-fit
repetition. -/
def entryQueries (counts : TrackCounts) (template_length : ℕ)
    (current_track_index : ℕ) : TrackSizingFunction → List ℕ
  | .Single _ => []
  | .Repeat (.Count _) _ => []
  | .Repeat .AutoFill _ => []
  | .Repeat .AutoFit repeated_tracks =>
    if repeated_tracks.isEmpty then []
    else (List.range (auto_repeated_track_count counts template_length)).map
      (fun j => current_track_index + j)

/-- The indices at which the explicit section consults `track_has_items`. -/
def explicitQueries (counts : TrackCounts) (template_length : ℕ) :
    List TrackSizingFunction → ℕ → List ℕ
  | [], _ => []
  | entry :: rest, current_track_index =>
    entryQueries counts template_length current_track_index entry
      ++ explicitQueries counts template_length rest
        (current_track_index + entryTrackCount counts template_length entry)

/-- All indices at which `initialize_grid_tracks` consults `track_has_items`:
none outside the explicit section, which starts at running index
`counts.negative_implicit`. -/
def initialize_grid_tracks_queries (counts : TrackCounts)
    (track_template : List TrackSizingFunction) : List ℕ :=
  if counts.explicit > 0 then
    explicitQueries counts track_template.length track_template
      counts.negative_implicit
  else []

/-- The total number of explicit tracks the Materializer emits for a
template. -/
def emittedExplicitCount (counts : TrackCounts)
    (track_template : List TrackSizingFunction) : ℕ :=
  if counts.explicit > 0 then
    (track_template.map (entryTrackCount counts track_template.length)).sum
  else 0

/-- All sizing functions occurring in a template, repeated or not
(§4.1 step 5 quantifies over these). -/
def templateSizingFunctions :
    List TrackSizingFunction → List NonRepeatedTrackSizingFunction
  | [] => []
  | .Single sf :: rest => sf :: templateSizingFunctions rest
  | .Repeat _ tracks :: rest => tracks ++ templateSizingFunctions rest

/-- The query indices as the claim describes them: the occupancy predicate
is consulted only while generating tracks of an auto-fit repetition, and
the index passed is `counts.negative_implicit` plus the number of explicit
tracks emitted before the track in question (`emitted` accumulates the
emitted-track count across earlier template entries, `j` the tracks emitted
earlier within the entry itself). -/
def autoFitQueryIndices (counts : TrackCounts) (template_length : ℕ) :
    List TrackSizingFunction → ℕ → List ℕ
  | [], _ => []
  | e :: rest, emitted =>
    (match e with
      | .Repeat .AutoFit rts =>
        if rts.isEmpty then []
        else (List.range (auto_repeated_track_count counts template_length)).map
          (fun j => counts.negative_implicit + emitted + j)
      | _ => []) ++
    autoFitQueryIndices counts template_length rest
      (emitted + entryTrackCount counts template_length e)

/-- Modelled from the spec: the claim's `fixedCount` (§4.1 step 3) — a
`Single` entry contributes 1, a fixed-count repetition contributes
`N * len(list)`, an auto-repetition contributes 0. -/
def specFixedCount (template : List TrackSizingFunction) : ℕ :=
  (template.map fun track_def => match track_def with
    | .Single _ => 1
    | .Repeat (.Count count) tracks => count * tracks.length
    | .Repeat .AutoFill _ => 0
    | .Repeat .AutoFit _ => 0).sum

/-- Modelled from the spec: `nonRepSpace` (§4.1 step 8) — the sum of the
definite values of every non-auto-repeat track occurrence, expanding
fixed-count repeats by multiplying the per-occurrence sum by their count. -/
def specNonRepSpace (template : List TrackSizingFunction) (basis : ℚ)
    (calc_resolver : CalcResolver) : ℚ :=
  (template.map fun track_def => match track_def with
    | .Single sf => track_definite_value sf (some basis) calc_resolver
    | .Repeat (.Count count) tracks =>
      ((tracks.map fun sf => track_definite_value sf (some basis)
        calc_resolver).sum) * (count : ℚ)
    | .Repeat .AutoFill _ => 0
    | .Repeat .AutoFit _ => 0).sum

/-- Modelled from the spec: `perRepSpace` (§4.1 step 8) — the sum of the
definite values over one repetition of the repeated track list. -/
def specPerRepSpace (rts : List NonRepeatedTrackSizingFunction) (basis : ℚ)
    (calc_resolver : CalcResolver) : ℚ :=
  (rts.map fun sf => track_definite_value sf (some basis) calc_resolver).sum

/-- Modelled from the spec: the resolved gap value (§4.1 step 8). -/
def specGap (style : GridAxisStyle) (basis : ℚ)
    (calc_resolver : CalcResolver) : ℚ :=
  style.gap.resolve_or_zero (some basis) calc_resolver

/-- Modelled from the spec: `firstChunk = nonRepSpace + perRepSpace +
gap * max(0, fixedCount + repLen - 1)` (§4.1 step 8; the natural
subtraction realizes the `max(0, ·)`). -/
def specFirstChunk (style : GridAxisStyle)
    (template : List TrackSizingFunction)
    (rts : List NonRepeatedTrackSizingFunction) (basis : ℚ)
    (calc_resolver : CalcResolver) : ℚ :=
  specNonRepSpace template basis calc_resolver
    + specPerRepSpace rts basis calc_resolver
    + ((specFixedCount template + rts.length - 1 : ℕ) : ℚ)
      * specGap style basis calc_resolver

/-- Modelled from the spec: `fitSpace = perRepSpace + gap * repLen`
(§4.1 step 8 — the space per additional repetition, including its trailing
gap). -/
def specFitSpace (style : GridAxisStyle)
    (rts : List NonRepeatedTrackSizingFunction) (basis : ℚ)
    (calc_resolver : CalcResolver) : ℚ :=
  specPerRepSpace rts basis calc_resolver
    + specGap style basis calc_resolver * (rts.length : ℚ)

/-- Modelled from the spec: `extra = (inner_container_size - firstChunk) /
fitSpace` (§4.1 step 8). -/
def specExtra (style : GridAxisStyle) (template : List TrackSizingFunction)
    (rts : List NonRepeatedTrackSizingFunction) (basis : ℚ)
    (calc_resolver : CalcResolver) : ℚ :=
  (basis - specFirstChunk style template rts basis calc_resolver)
    / specFitSpace style rts basis calc_resolver

/-- Modelled from the spec: whether the container's governing size is a
definite preferred or maximum size (§4.1 step 8's floor/ceil tie-break). -/
def specSizeIsMaximum (style : GridAxisStyle) (inner : Option ℚ)
    (calc_resolver : CalcResolver) : Bool :=
  (style.size.maybe_resolve inner calc_resolver).isSome
    || (style.max_size.maybe_resolve inner calc_resolver).isSome

/-- A track list that alternates Track, Gutter, Track, Gutter, ... starting
with a Track and having even length: the shape of every
track-plus-trailing-gutter section the Materializer appends after the
leading gutter. -/
def TrackGutterPairs (l : List GridTrack) : Prop :=
  l.length % 2 = 0 ∧ ∀ i, i < l.length →
    l[i]?.map (fun t => t.kind)
      = some (if i % 2 = 0 then GridTrackKind.Track else GridTrackKind.Gutter)

theorem pairBlocks_length (f g : ℕ → GridTrack) (l : List ℕ) :
    (pairBlocks f g l).length = 2 * l.length := by
  induction l with
  | nil => rfl
  | cons a rest ih => simp [pairBlocks, ih]; ring

theorem pairBlocks_getElem?_even (f g : ℕ → GridTrack) (l : List ℕ) (j : ℕ) :
    (pairBlocks f g l)[2 * j]? = l[j]?.map f := by
  induction l generalizing j with
  | nil => simp [pairBlocks]
  | cons a rest ih =>
    cases j with
    | zero => simp [pairBlocks]
    | succ j =>
      have h2 : 2 * (j + 1) = (2 * j) + 1 + 1 := by ring
      simp only [pairBlocks, h2, List.getElem?_cons_succ]
      exact ih j

theorem pairBlocks_getElem?_odd (f g : ℕ → GridTrack) (l : List ℕ) (j : ℕ) :
    (pairBlocks f g l)[2 * j + 1]? = l[j]?.map g := by
  induction l generalizing j with
  | nil => simp [pairBlocks]
  | cons a rest ih =>
    cases j with
    | zero => simp [pairBlocks]
    | succ j =>
      have h2 : 2 * (j + 1) + 1 = ((2 * j) + 1) + 1 + 1 := by ring
      simp only [pairBlocks, h2, List.getElem?_cons_succ]
      exact ih j

theorem pairBlocks_mem (f g : ℕ → GridTrack) (l : List ℕ) (t : GridTrack)
    (h : t ∈ pairBlocks f g l) : ∃ a ∈ l, t = f a ∨ t = g a := by
  induction l with
  | nil => simp [pairBlocks] at h
  | cons a rest ih =>
    simp only [pairBlocks, List.mem_cons] at h
    rcases h with h | h | h
    · exact ⟨a, List.mem_cons_self a rest, Or.inl h⟩
    · exact ⟨a, List.mem_cons_self a rest, Or.inr h⟩
    · obtain ⟨b, hb, hor⟩ := ih h
      exact ⟨b, List.mem_cons_of_mem a hb, hor⟩

/-- C10: initialize_grid_tracks clears the caller-supplied buffer before
writing, so its final state is fully determined by the counts, template,
auto track definitions, gap and occupancy predicate, and is identical for
any two initial buffer contents. -/
theorem initialize_grid_tracks_independent_of_buffer
    (buffer₁ buffer₂ : List GridTrack) (counts : TrackCounts)
    (track_template : List TrackSizingFunction)
    (auto_tracks : List NonRepeatedTrackSizingFunction)
    (gap : LengthPercentage) (track_has_items : ℕ → Bool) :
    initialize_grid_tracks buffer₁ counts track_template auto_tracks gap
        track_has_items
      = initialize_grid_tracks buffer₂ counts track_template auto_tracks gap
        track_has_items := rfl

/-- C2 (evidence of the code bug): at a sizing function whose min component
(100) exceeds its definite max component (40), `track_definite_value`
returns `min(max, min) = 40`, strictly below the min component — the
source applies `maybe_min`, although its own doc comment ("flooring the max
track sizing function by the min track sizing function") and the spec
require a result that is at least the min component. -/
theorem track_definite_value_below_min_at_failing_input :
    track_definite_value
        { min := .Fixed (.Length 100), max := .Fixed (.Length 40) }
        (some 500) (fun _ _ => 0) = 40
      ∧ (40 : ℚ) < 100 := by
  constructor
  · rfl
  · norm_num

theorem template_all_fixed_eq (template : List TrackSizingFunction) :
    (template.all fun track_def =>
      match track_def with
      | .Single sizing_function => sizing_function.has_fixed_component
      | .Repeat _ tracks =>
        tracks.all fun sizing_function => sizing_function.has_fixed_component)
      = (templateSizingFunctions template).all
        fun sizing_function => sizing_function.has_fixed_component := by
  induction template with
  | nil => rfl
  | cons e rest ih =>
    cases e with
    | Single sf => simp only [List.all_cons, templateSizingFunctions, ih]
    | Repeat rep tracks =>
      simp only [List.all_cons, templateSizingFunctions, List.all_append, ih]

/-- C5: for every invalid template — empty, containing a repetition with an
empty inner track list, containing two or more auto-repeat entries, or
containing exactly one auto-repeat entry while some sizing function has
neither a fixed min nor a fixed max component — the Resolver returns 0.
It is a total function, so no error is raised. -/
theorem compute_explicit_grid_size_in_axis_invalid (style : GridAxisStyle)
    (template : List TrackSizingFunction) (inner_container_size : Option ℚ)
    (resolve_calc_value : CalcResolver)
    (h : template = []
      ∨ (∃ rep, TrackSizingFunction.Repeat rep [] ∈ template)
      ∨ 2 ≤ (template.filter fun td => td.is_auto_repetition).length
      ∨ ((template.filter fun td => td.is_auto_repetition).length = 1 ∧
          ∃ sf ∈ templateSizingFunctions template, sf.has_fixed_component = false)) :
    compute_explicit_grid_size_in_axis style template inner_container_size
      resolve_calc_value = 0 := by
  unfold compute_explicit_grid_size_in_axis
  rcases h with rfl | ⟨rep, hmem⟩ | hge | ⟨hone, sf, hsf, hfix⟩
  · rfl
  · have hany : (template.any fun track_def =>
        match track_def with
        | .Single _ => false
        | .Repeat _ tracks => tracks.isEmpty) = true :=
      List.any_eq_true.mpr ⟨_, hmem, by simp⟩
    by_cases hemp : template.isEmpty <;> simp [hemp, hany]
  · have h0 : ((template.filter fun td => td.is_auto_repetition).length == 0)
        = false := by rw [beq_eq_false_iff_ne]; omega
    have h1 : ((template.filter fun td => td.is_auto_repetition).length == 1)
        = false := by rw [beq_eq_false_iff_ne]; omega
    by_cases hemp : template.isEmpty
    · simp [hemp]
    · by_cases hany : (template.any fun track_def =>
          match track_def with
          | .Single _ => false
          | .Repeat _ tracks => tracks.isEmpty)
      · simp [hemp, hany]
      · simp [hemp, hany, h0, h1]
  · have hall : ((templateSizingFunctions template).all
        fun sizing_function => sizing_function.has_fixed_component) = false :=
      List.all_eq_false.mpr ⟨sf, hsf, by simp [hfix]⟩
    have h1 : ((template.filter fun td => td.is_auto_repetition).length == 1)
        = true := by rw [beq_iff_eq]; omega
    have h0 : ((template.filter fun td => td.is_auto_repetition).length == 0)
        = false := by rw [beq_eq_false_iff_ne]; omega
    by_cases hemp : template.isEmpty
    · simp [hemp]
    · by_cases hany : (template.any fun track_def =>
          match track_def with
          | .Single _ => false
          | .Repeat _ tracks => tracks.isEmpty)
      · simp [hemp, hany]
      · simp [hemp, hany, h0, h1, template_all_fixed_eq, hall]

/-- Witness for C5 at a concrete invalid input: a template whose only entry
is an auto-fill repetition with an empty inner list resolves to 0. -/
theorem compute_explicit_grid_size_in_axis_invalid_witness :
    compute_explicit_grid_size_in_axis
      { size := .Auto, max_size := .Auto, gap := .Length 0 }
      [.Repeat .AutoFill []] (some 100) (fun _ _ => 0) = 0 :=
  compute_explicit_grid_size_in_axis_invalid _ _ _ _
    (Or.inr (Or.inl ⟨.AutoFill, by simp⟩))

theorem autoRepeatEntryTracks_track_getElem? (is_auto_fit : Bool)
    (rts : List NonRepeatedTrackSizingFunction) (counts : TrackCounts)
    (template_length : ℕ) (gap : LengthPercentage) (track_has_items : ℕ → Bool)
    (current_track_index : ℕ) (j : ℕ) (hrts : rts ≠ [])
    (hj : j < auto_repeated_track_count counts template_length) :
    (autoRepeatEntryTracks is_auto_fit rts counts template_length gap
      track_has_items current_track_index)[2 * j]?
      = some (if is_auto_fit && !track_has_items (current_track_index + j) then
          (GridTrack.new (rts.getD (j % rts.length) .AUTO).min_sizing_function
            (rts.getD (j % rts.length) .AUTO).max_sizing_function).collapse
        else
          GridTrack.new (rts.getD (j % rts.length) .AUTO).min_sizing_function
            (rts.getD (j % rts.length) .AUTO).max_sizing_function) := by
  unfold autoRepeatEntryTracks
  rw [if_neg (by simp [hrts])]
  rw [pairBlocks_getElem?_even]
  rw [List.getElem?_range hj]
  rfl

theorem autoRepeatEntryTracks_gutter_getElem? (is_auto_fit : Bool)
    (rts : List NonRepeatedTrackSizingFunction) (counts : TrackCounts)
    (template_length : ℕ) (gap : LengthPercentage) (track_has_items : ℕ → Bool)
    (current_track_index : ℕ) (j : ℕ) (hrts : rts ≠ [])
    (hj : j < auto_repeated_track_count counts template_length) :
    (autoRepeatEntryTracks is_auto_fit rts counts template_length gap
      track_has_items current_track_index)[2 * j + 1]?
      = some (if is_auto_fit && !track_has_items (current_track_index + j) then
          (GridTrack.gutter gap).collapse
        else GridTrack.gutter gap) := by
  unfold autoRepeatEntryTracks
  rw [if_neg (by simp [hrts])]
  rw [pairBlocks_getElem?_odd]
  rw [List.getElem?_range hj]
  rfl

theorem pairBlocks_filter_track_length (f g : ℕ → GridTrack) (l : List ℕ)
    (hf : ∀ a, (f a).kind = .Track) (hg : ∀ a, (g a).kind = .Gutter) :
    ((pairBlocks f g l).filter fun t => t.kind == GridTrackKind.Track).length
      = l.length := by
  induction l with
  | nil => rfl
  | cons a rest ih =>
    simp [pairBlocks, List.filter_cons, hf a, hg a, ih]

theorem autoRepeatEntryTracks_filter_track_length (is_auto_fit : Bool)
    (rts : List NonRepeatedTrackSizingFunction) (counts : TrackCounts)
    (template_length : ℕ) (gap : LengthPercentage) (track_has_items : ℕ → Bool)
    (current_track_index : ℕ) (hrts : rts ≠ []) :
    ((autoRepeatEntryTracks is_auto_fit rts counts template_length gap
        track_has_items current_track_index).filter
      fun t => t.kind == GridTrackKind.Track).length
      = auto_repeated_track_count counts template_length := by
  unfold autoRepeatEntryTracks
  rw [if_neg (by simp [hrts])]
  rw [pairBlocks_filter_track_length]
  · exact List.length_range _
  · intro a
    dsimp only
    split <;> rfl
  · intro a
    dsimp only
    split <;> rfl

theorem pairBlocks_congr (f g f₂ g₂ : ℕ → GridTrack) (l : List ℕ)
    (hf : ∀ a ∈ l, f a = f₂ a) (hg : ∀ a ∈ l, g a = g₂ a) :
    pairBlocks f g l = pairBlocks f₂ g₂ l := by
  induction l with
  | nil => rfl
  | cons a rest ih =>
    simp only [pairBlocks]
    rw [hf a (List.mem_cons_self a rest), hg a (List.mem_cons_self a rest),
      ih (fun b hb => hf b (List.mem_cons_of_mem a hb))
        (fun b hb => hg b (List.mem_cons_of_mem a hb))]

/-- C8: when `counts.explicit > 0` and the template contains an auto-repeat
(auto-fill or auto-fit) entry, the Materializer generates for that entry
exactly `counts.explicit - (len(template) - 1)` tracks (the subtraction is
exact under `hsub`, matching the source's u16 subtraction), produced by
cycling through the entry's inner track list: the `j`-th generated track is
built from `rts[j % rts.length]` (collapsed when the entry is auto-fit and
the occupancy predicate is false there). -/
theorem auto_repeat_entry_track_count_and_cycling
    (counts : TrackCounts) (template_length : ℕ) (gap : LengthPercentage)
    (track_has_items : ℕ → Bool) (current_track_index : ℕ)
    (k : GridTrackRepetition) (rts : List NonRepeatedTrackSizingFunction)
    (hk : k = .AutoFill ∨ k = .AutoFit) (hrts : rts ≠ [])
    (hexp : 0 < counts.explicit)
    (hsub : template_length - 1 ≤ counts.explicit) :
    (((entryTracks counts template_length gap track_has_items
        current_track_index (.Repeat k rts)).filter
          fun t => t.kind == GridTrackKind.Track).length
      = counts.explicit - (template_length - 1))
    ∧ ∀ j, j < counts.explicit - (template_length - 1) →
        ∃ sf, rts[j % rts.length]? = some sf ∧
          (entryTracks counts template_length gap track_has_items
            current_track_index (.Repeat k rts))[2 * j]?
            = some (if (k == GridTrackRepetition.AutoFit)
                  && !track_has_items (current_track_index + j) then
                (GridTrack.new sf.min_sizing_function sf.max_sizing_function).collapse
              else GridTrack.new sf.min_sizing_function sf.max_sizing_function) := by
  have hlen : 0 < rts.length := List.length_pos.mpr hrts
  have hcj : ∀ j : ℕ, j % rts.length < rts.length := fun j => Nat.mod_lt j hlen
  rcases hk with rfl | rfl
  · constructor
    · exact autoRepeatEntryTracks_filter_track_length false rts counts
        template_length gap track_has_items current_track_index hrts
    · intro j hj
      refine ⟨rts.get ⟨j % rts.length, hcj j⟩, ?_, ?_⟩
      · simp [List.getElem?_eq_getElem (hcj j)]
      · simp only [entryTracks]
        rw [autoRepeatEntryTracks_track_getElem? false rts counts template_length
          gap track_has_items current_track_index j hrts hj]
        rw [List.getD_eq_getElem?_getD, List.getElem?_eq_getElem (hcj j)]
        simp
  · constructor
    · exact autoRepeatEntryTracks_filter_track_length true rts counts
        template_length gap track_has_items current_track_index hrts
    · intro j hj
      refine ⟨rts.get ⟨j % rts.length, hcj j⟩, ?_, ?_⟩
      · simp [List.getElem?_eq_getElem (hcj j)]
      · simp only [entryTracks]
        rw [autoRepeatEntryTracks_track_getElem? true rts counts template_length
          gap track_has_items current_track_index j hrts hj]
        rw [List.getD_eq_getElem?_getD, List.getElem?_eq_getElem (hcj j)]
        simp

/-- Witness for C8 at a concrete input: an auto-fill entry with inner list of
length one, `counts.explicit = 3` and a one-entry template generates three
tracks. -/
theorem auto_repeat_entry_track_count_and_cycling_witness :
    ((entryTracks ⟨0, 3, 0⟩ 1 (.Length 5) (fun _ => false) 0
        (.Repeat .AutoFill [NonRepeatedTrackSizingFunction.AUTO])).filter
      fun t => t.kind == GridTrackKind.Track).length = 3 :=
  (auto_repeat_entry_track_count_and_cycling ⟨0, 3, 0⟩ 1 (.Length 5)
    (fun _ => false) 0 .AutoFill [NonRepeatedTrackSizingFunction.AUTO]
    (Or.inl rfl) (by simp) (by decide) (by decide)).1

/-- C6: in the Materializer, a track generated by an auto-fit repetition at
running explicit-track index `i = current_track_index + j` is collapsed
together with its trailing gutter whenever `track_has_items i` is false;
tracks generated by an auto-fill repetition are never collapsed and do not
depend on the occupancy predicate at all; and when every generated auto-fit
track has items the auto-fit output coincides with the auto-fill output, so
the collapse marking is the sole behavioural difference between the two
repetition kinds. -/
theorem auto_fit_collapse_behaviour (counts : TrackCounts)
    (template_length : ℕ) (gap : LengthPercentage) (track_has_items : ℕ → Bool)
    (current_track_index : ℕ) (rts : List NonRepeatedTrackSizingFunction)
    (hrts : rts ≠ []) :
    (∀ j, j < auto_repeated_track_count counts template_length →
      track_has_items (current_track_index + j) = false →
      (∃ t, (entryTracks counts template_length gap track_has_items
          current_track_index (.Repeat .AutoFit rts))[2 * j]? = some t
        ∧ t.collapsed = true)
      ∧ (∃ u, (entryTracks counts template_length gap track_has_items
          current_track_index (.Repeat .AutoFit rts))[2 * j + 1]? = some u
        ∧ u.collapsed = true))
    ∧ (∀ t ∈ entryTracks counts template_length gap track_has_items
        current_track_index (.Repeat .AutoFill rts), t.collapsed = false)
    ∧ (∀ other_track_has_items : ℕ → Bool,
      entryTracks counts template_length gap track_has_items
          current_track_index (.Repeat .AutoFill rts)
        = entryTracks counts template_length gap other_track_has_items
          current_track_index (.Repeat .AutoFill rts))
    ∧ ((∀ j, j < auto_repeated_track_count counts template_length →
        track_has_items (current_track_index + j) = true) →
      entryTracks counts template_length gap track_has_items
          current_track_index (.Repeat .AutoFit rts)
        = entryTracks counts template_length gap track_has_items
          current_track_index (.Repeat .AutoFill rts)) := by
  refine ⟨?_, ?_, ?_, ?_⟩
  · intro j hj hfalse
    have ht := autoRepeatEntryTracks_track_getElem? true rts counts
      template_length gap track_has_items current_track_index j hrts hj
    have hgu := autoRepeatEntryTracks_gutter_getElem? true rts counts
      template_length gap track_has_items current_track_index j hrts hj
    rw [hfalse] at ht hgu
    constructor
    · exact ⟨_, ht, rfl⟩
    · exact ⟨_, hgu, rfl⟩
  · intro t ht
    have ht2 : t ∈ autoRepeatEntryTracks false rts counts template_length gap
        track_has_items current_track_index := ht
    unfold autoRepeatEntryTracks at ht2
    rw [if_neg (by simp [hrts])] at ht2
    obtain ⟨a, _, h | h⟩ := pairBlocks_mem _ _ _ _ ht2 <;>
      simp only [Bool.false_and, Bool.false_eq_true, if_false] at h <;>
      subst h <;> rfl
  · intro other_track_has_items
    show autoRepeatEntryTracks false rts counts template_length gap
        track_has_items current_track_index
      = autoRepeatEntryTracks false rts counts template_length gap
        other_track_has_items current_track_index
    unfold autoRepeatEntryTracks
    rw [if_neg (by simp [hrts]), if_neg (by simp [hrts])]
    exact pairBlocks_congr _ _ _ _ _ (fun a _ => by simp) (fun a _ => by simp)
  · intro hall
    show autoRepeatEntryTracks true rts counts template_length gap
        track_has_items current_track_index
      = autoRepeatEntryTracks false rts counts template_length gap
        track_has_items current_track_index
    unfold autoRepeatEntryTracks
    rw [if_neg (by simp [hrts]), if_neg (by simp [hrts])]
    refine pairBlocks_congr _ _ _ _ _ (fun a ha => ?_) (fun a ha => ?_) <;>
      · have := hall a (List.mem_range.mp ha)
        simp [this]

/-- Witness for C6 at a concrete input: with one auto-fit repetition of a
single `auto` track, an always-false occupancy predicate collapses the first
generated track. -/
theorem auto_fit_collapse_behaviour_witness :
    ∃ t, (entryTracks ⟨0, 1, 0⟩ 1 (.Length 5) (fun _ => false) 0
        (.Repeat .AutoFit [NonRepeatedTrackSizingFunction.AUTO]))[0]?
      = some t ∧ t.collapsed = true := by
  have h := (auto_fit_collapse_behaviour ⟨0, 1, 0⟩ 1 (.Length 5)
    (fun _ => false) 0 [NonRepeatedTrackSizingFunction.AUTO]
    (by simp)).1 0 (by decide) rfl
  simpa using h.1

theorem entryTracks_congr_pred (counts : TrackCounts) (template_length : ℕ)
    (gap : LengthPercentage) (p₁ p₂ : ℕ → Bool) (current_track_index : ℕ)
    (entry : TrackSizingFunction)
    (h : ∀ i ∈ entryQueries counts template_length current_track_index entry,
      p₁ i = p₂ i) :
    entryTracks counts template_length gap p₁ current_track_index entry
      = entryTracks counts template_length gap p₂ current_track_index entry := by
  cases entry with
  | Single sf => rfl
  | Repeat rep rts =>
    cases rep with
    | Count n => rfl
    | AutoFill =>
      show autoRepeatEntryTracks false rts counts template_length gap p₁
          current_track_index
        = autoRepeatEntryTracks false rts counts template_length gap p₂
          current_track_index
      unfold autoRepeatEntryTracks
      split
      · rfl
      · exact pairBlocks_congr _ _ _ _ _ (fun a _ => by simp) (fun a _ => by simp)
    | AutoFit =>
      show autoRepeatEntryTracks true rts counts template_length gap p₁
          current_track_index
        = autoRepeatEntryTracks true rts counts template_length gap p₂
          current_track_index
      unfold autoRepeatEntryTracks
      by_cases hemp : rts.isEmpty
      · rw [if_pos hemp, if_pos hemp]
      · rw [if_neg hemp, if_neg hemp]
        refine pairBlocks_congr _ _ _ _ _ (fun a ha => ?_) (fun a ha => ?_) <;>
        · have hq : p₁ (current_track_index + a) = p₂ (current_track_index + a) := by
            apply h
            simp only [entryQueries]
            rw [if_neg hemp]
            exact List.mem_map.mpr ⟨a, ha, rfl⟩
          simp [hq]

theorem explicitTracks_congr_pred (counts : TrackCounts) (template_length : ℕ)
    (gap : LengthPercentage) (p₁ p₂ : ℕ → Bool) :
    ∀ (entries : List TrackSizingFunction) (current_track_index : ℕ),
    (∀ i ∈ explicitQueries counts template_length entries current_track_index,
      p₁ i = p₂ i) →
    explicitTracks counts template_length gap p₁ entries current_track_index
      = explicitTracks counts template_length gap p₂ entries current_track_index := by
  intro entries
  induction entries with
  | nil => intro s h; rfl
  | cons e rest ih =>
    intro s h
    simp only [explicitTracks]
    rw [entryTracks_congr_pred counts template_length gap p₁ p₂ s e
      (fun i hi => h i (by
        simp only [explicitQueries, List.mem_append]
        exact Or.inl hi))]
    rw [ih _ (fun i hi => h i (by
      simp only [explicitQueries, List.mem_append]
      exact Or.inr hi))]

theorem explicitQueries_eq_autoFitQueryIndices (counts : TrackCounts)
    (template_length : ℕ) :
    ∀ (entries : List TrackSizingFunction) (emitted : ℕ),
    explicitQueries counts template_length entries
        (counts.negative_implicit + emitted)
      = autoFitQueryIndices counts template_length entries emitted := by
  intro entries
  induction entries with
  | nil => intro emitted; rfl
  | cons e rest ih =>
    intro emitted
    simp only [explicitQueries, autoFitQueryIndices]
    have hrec : counts.negative_implicit + emitted
        + entryTrackCount counts template_length e
        = counts.negative_implicit
          + (emitted + entryTrackCount counts template_length e) := by omega
    rw [hrec, ih]
    congr 1
    cases e with
    | Single sf => rfl
    | Repeat rep rts => cases rep <;> rfl

/-- C9: the occupancy predicate is consulted only while generating the
tracks of an auto-fit repetition — two predicates agreeing on the query
index list produce identical buffers (so `Single` entries, fixed-count
repeats, auto-fill repetitions and implicit tracks never consult it) — and
the query index list is exactly as the claim describes: for each
auto-fit-generated track, `counts.negative_implicit` plus the number of
explicit tracks emitted before that track. -/
theorem initialize_grid_tracks_occupancy_queries (buffer : List GridTrack)
    (counts : TrackCounts) (track_template : List TrackSizingFunction)
    (auto_tracks : List NonRepeatedTrackSizingFunction) (gap : LengthPercentage)
    (p₁ p₂ : ℕ → Bool)
    (h : ∀ i ∈ initialize_grid_tracks_queries counts track_template, p₁ i = p₂ i) :
    initialize_grid_tracks buffer counts track_template auto_tracks gap p₁
      = initialize_grid_tracks buffer counts track_template auto_tracks gap p₂
    ∧ initialize_grid_tracks_queries counts track_template
      = (if 0 < counts.explicit then
          autoFitQueryIndices counts track_template.length track_template 0
        else []) := by
  constructor
  · have hsec : (if counts.explicit > 0 then
        explicitTracks counts track_template.length gap p₁ track_template
          counts.negative_implicit
      else [])
      = (if counts.explicit > 0 then
        explicitTracks counts track_template.length gap p₂ track_template
          counts.negative_implicit
      else []) := by
      split
      · rename_i hpos
        apply explicitTracks_congr_pred
        intro i hi
        apply h
        unfold initialize_grid_tracks_queries
        rw [if_pos hpos]
        exact hi
      · rfl
    simp only [initialize_grid_tracks, initialize_grid_tracks_body]
    rw [hsec]
  · unfold initialize_grid_tracks_queries
    split
    · have heq := explicitQueries_eq_autoFitQueryIndices counts
        track_template.length track_template 0
      rw [Nat.add_zero] at heq
      exact heq
    · rfl

/-- Witness for C9 at a concrete input: a template with a single auto-fill
repetition never consults the occupancy predicate, so an always-true and an
always-false predicate produce identical buffers. -/
theorem initialize_grid_tracks_occupancy_queries_witness :
    initialize_grid_tracks [] ⟨1, 1, 1⟩
        [.Repeat .AutoFill [NonRepeatedTrackSizingFunction.AUTO]] []
        (.Length 3) (fun _ => true)
      = initialize_grid_tracks [] ⟨1, 1, 1⟩
        [.Repeat .AutoFill [NonRepeatedTrackSizingFunction.AUTO]] []
        (.Length 3) (fun _ => false) :=
  (initialize_grid_tracks_occupancy_queries [] ⟨1, 1, 1⟩
    [.Repeat .AutoFill [NonRepeatedTrackSizingFunction.AUTO]] [] (.Length 3)
    (fun _ => true) (fun _ => false)
    (fun i hi => by
      simp [initialize_grid_tracks_queries, explicitQueries, entryQueries] at hi)).1

theorem collapseFirst_length (l : List GridTrack) :
    (collapseFirst l).length = l.length := by
  cases l <;> rfl

theorem collapseLast_length : ∀ l : List GridTrack,
    (collapseLast l).length = l.length
  | [] => rfl
  | [_] => rfl
  | t :: b :: r => by
    show (t :: collapseLast (b :: r)).length = (t :: b :: r).length
    simp [collapseLast_length (b :: r)]

theorem collapseFirst_getElem?_pos (l : List GridTrack) (i : ℕ) (h : 0 < i) :
    (collapseFirst l)[i]? = l[i]? := by
  cases l with
  | nil => rfl
  | cons t rest =>
    cases i with
    | zero => omega
    | succ n => rfl

theorem collapseLast_getElem?_lt : ∀ (l : List GridTrack) (i : ℕ),
    i + 1 < l.length → (collapseLast l)[i]? = l[i]?
  | [], i, h => by simp at h
  | [_], i, h => by simp at h
  | t :: b :: r, 0, _ => by
    show (t :: collapseLast (b :: r))[0]? = _
    simp
  | t :: b :: r, (i+1), h => by
    show (t :: collapseLast (b :: r))[i+1]? = (t :: b :: r)[i+1]?
    simp only [List.getElem?_cons_succ]
    exact collapseLast_getElem?_lt (b :: r) i (by simpa using h)

theorem create_implicit_tracks_length (count : ℕ)
    (auto_tracks_iter : ℕ → NonRepeatedTrackSizingFunction)
    (gap : LengthPercentage) :
    (create_implicit_tracks count auto_tracks_iter gap).length = 2 * count := by
  unfold create_implicit_tracks
  rw [pairBlocks_length, List.length_range]

theorem create_implicit_tracks_getElem? (count : ℕ)
    (auto_tracks_iter : ℕ → NonRepeatedTrackSizingFunction)
    (gap : LengthPercentage) (j : ℕ) (hj : j < count) :
    (create_implicit_tracks count auto_tracks_iter gap)[2 * j]?
      = some (GridTrack.new (auto_tracks_iter j).min_sizing_function
        (auto_tracks_iter j).max_sizing_function) := by
  unfold create_implicit_tracks
  rw [pairBlocks_getElem?_even, List.getElem?_range hj]
  rfl

theorem entryTracks_length (counts : TrackCounts) (template_length : ℕ)
    (gap : LengthPercentage) (track_has_items : ℕ → Bool)
    (current_track_index : ℕ) (entry : TrackSizingFunction) :
    (entryTracks counts template_length gap track_has_items
      current_track_index entry).length
      = 2 * entryTrackCount counts template_length entry := by
  cases entry with
  | Single sf => rfl
  | Repeat rep rts =>
    cases rep with
    | Count n => simp [entryTracks, pairBlocks_length, entryTrackCount]
    | AutoFill =>
      show (autoRepeatEntryTracks false rts counts template_length gap
        track_has_items current_track_index).length = _
      unfold autoRepeatEntryTracks
      by_cases hemp : rts.isEmpty
      · simp [hemp, entryTrackCount]
      · simp [hemp, entryTrackCount, pairBlocks_length]
    | AutoFit =>
      show (autoRepeatEntryTracks true rts counts template_length gap
        track_has_items current_track_index).length = _
      unfold autoRepeatEntryTracks
      by_cases hemp : rts.isEmpty
      · simp [hemp, entryTrackCount]
      · simp [hemp, entryTrackCount, pairBlocks_length]

theorem explicitTracks_length (counts : TrackCounts) (template_length : ℕ)
    (gap : LengthPercentage) (track_has_items : ℕ → Bool) :
    ∀ (entries : List TrackSizingFunction) (current_track_index : ℕ),
    (explicitTracks counts template_length gap track_has_items entries
      current_track_index).length
      = 2 * (entries.map (entryTrackCount counts template_length)).sum := by
  intro entries
  induction entries with
  | nil => intro s; rfl
  | cons e rest ih =>
    intro s
    simp only [explicitTracks, List.length_append, entryTracks_length, ih,
      List.map_cons, List.sum_cons]
    ring

theorem initialize_grid_tracks_body_length (counts : TrackCounts)
    (track_template : List TrackSizingFunction)
    (auto_tracks : List NonRepeatedTrackSizingFunction)
    (gap : LengthPercentage) (track_has_items : ℕ → Bool) :
    (initialize_grid_tracks_body counts track_template auto_tracks gap
      track_has_items).length
      = 2 * (counts.negative_implicit + emittedExplicitCount counts track_template
          + counts.positive_implicit) + 1 := by
  unfold initialize_grid_tracks_body emittedExplicitCount
  by_cases hneg : counts.negative_implicit > 0 <;>
    by_cases hemp : auto_tracks.isEmpty <;>
      by_cases hexp : counts.explicit > 0 <;>
        simp [hneg, hemp, hexp, List.length_append,
          create_implicit_tracks_length, explicitTracks_length] <;>
        omega

theorem initialize_grid_tracks_length (buffer : List GridTrack)
    (counts : TrackCounts) (track_template : List TrackSizingFunction)
    (auto_tracks : List NonRepeatedTrackSizingFunction)
    (gap : LengthPercentage) (track_has_items : ℕ → Bool) :
    (initialize_grid_tracks buffer counts track_template auto_tracks gap
      track_has_items).length
      = 2 * (counts.negative_implicit + emittedExplicitCount counts track_template
          + counts.positive_implicit) + 1 := by
  unfold initialize_grid_tracks
  rw [collapseLast_length, collapseFirst_length,
    initialize_grid_tracks_body_length]

theorem initialize_grid_tracks_getElem?_interior (buffer : List GridTrack)
    (counts : TrackCounts) (track_template : List TrackSizingFunction)
    (auto_tracks : List NonRepeatedTrackSizingFunction)
    (gap : LengthPercentage) (track_has_items : ℕ → Bool) (i : ℕ)
    (h0 : 0 < i)
    (hlt : i < 2 * (counts.negative_implicit
      + emittedExplicitCount counts track_template
      + counts.positive_implicit)) :
    (initialize_grid_tracks buffer counts track_template auto_tracks gap
      track_has_items)[i]?
      = (initialize_grid_tracks_body counts track_template auto_tracks gap
        track_has_items)[i]? := by
  unfold initialize_grid_tracks
  rw [collapseLast_getElem?_lt _ i (by
    rw [collapseFirst_length, initialize_grid_tracks_body_length]; omega)]
  exact collapseFirst_getElem?_pos _ i h0

theorem append4_getElem?_sec2 {α : Type} {W N E P : List α} (j : ℕ)
    (hW : W.length = 1) (hj : 2 * j < N.length) :
    (W ++ N ++ E ++ P)[1 + 2 * j]? = N[2 * j]? := by
  rw [List.getElem?_append_left (by simp [List.length_append, hW]; omega)]
  rw [List.getElem?_append_left (by simp [List.length_append, hW]; omega)]
  rw [List.getElem?_append_right (by omega)]
  congr 1
  omega

theorem append4_getElem?_sec4 {α : Type} {W N E P : List α} (i : ℕ)
    (hge : W.length + N.length + E.length ≤ i) :
    (W ++ N ++ E ++ P)[i]? = P[i - W.length - N.length - E.length]? := by
  rw [List.getElem?_append_right (by simp [List.length_append]; omega)]
  congr 1
  simp [List.length_append]
  omega

theorem negSection_length (counts : TrackCounts)
    (auto_tracks : List NonRepeatedTrackSizingFunction) (gap : LengthPercentage) :
    (if counts.negative_implicit > 0 then
      if auto_tracks.isEmpty then
        create_implicit_tracks counts.negative_implicit (fun _ => .AUTO) gap
      else
        create_implicit_tracks counts.negative_implicit
          (fun i => auto_tracks.getD
            ((auto_tracks.length - counts.negative_implicit % auto_tracks.length + i)
              % auto_tracks.length) .AUTO) gap
    else []).length = 2 * counts.negative_implicit := by
  by_cases hneg : counts.negative_implicit > 0
  · rw [if_pos hneg]
    by_cases hemp : auto_tracks.isEmpty
    · rw [if_pos hemp, create_implicit_tracks_length]
    · rw [if_neg hemp, create_implicit_tracks_length]
  · rw [if_neg hneg]
    simp
    omega

theorem explicitSection_length (counts : TrackCounts)
    (track_template : List TrackSizingFunction) (gap : LengthPercentage)
    (track_has_items : ℕ → Bool) :
    (if counts.explicit > 0 then
      explicitTracks counts track_template.length gap track_has_items
        track_template counts.negative_implicit
    else []).length = 2 * emittedExplicitCount counts track_template := by
  unfold emittedExplicitCount
  by_cases hexp : counts.explicit > 0
  · rw [if_pos hexp, if_pos hexp, explicitTracks_length]
  · rw [if_neg hexp, if_neg hexp]
    rfl

theorem initialize_grid_tracks_body_getElem?_neg (counts : TrackCounts)
    (track_template : List TrackSizingFunction)
    (auto_tracks : List NonRepeatedTrackSizingFunction)
    (gap : LengthPercentage) (track_has_items : ℕ → Bool) (j : ℕ)
    (hj : j < counts.negative_implicit) :
    (initialize_grid_tracks_body counts track_template auto_tracks gap
      track_has_items)[1 + 2 * j]?
      = (if auto_tracks.isEmpty then
          create_implicit_tracks counts.negative_implicit (fun _ => .AUTO) gap
        else
          create_implicit_tracks counts.negative_implicit
            (fun i => auto_tracks.getD
              ((auto_tracks.length - counts.negative_implicit % auto_tracks.length + i)
                % auto_tracks.length) .AUTO) gap)[2 * j]? := by
  have hneg : counts.negative_implicit > 0 := by omega
  simp only [initialize_grid_tracks_body]
  rw [if_pos hneg]
  apply append4_getElem?_sec2
  · rfl
  · by_cases hemp : auto_tracks.isEmpty
    · rw [if_pos hemp, create_implicit_tracks_length]; omega
    · rw [if_neg hemp, create_implicit_tracks_length]; omega

theorem initialize_grid_tracks_body_getElem?_pos (counts : TrackCounts)
    (track_template : List TrackSizingFunction)
    (auto_tracks : List NonRepeatedTrackSizingFunction)
    (gap : LengthPercentage) (track_has_items : ℕ → Bool) (j : ℕ) :
    (initialize_grid_tracks_body counts track_template auto_tracks gap
      track_has_items)[1 + 2 * (counts.negative_implicit
        + emittedExplicitCount counts track_template) + 2 * j]?
      = (if auto_tracks.isEmpty then
          create_implicit_tracks counts.positive_implicit (fun _ => .AUTO) gap
        else
          create_implicit_tracks counts.positive_implicit
            (fun i => auto_tracks.getD (i % auto_tracks.length) .AUTO) gap)[2 * j]? := by
  simp only [initialize_grid_tracks_body]
  have h1 : (([] : List GridTrack) ++ [GridTrack.gutter gap]).length = 1 := rfl
  have h2 := negSection_length counts auto_tracks gap
  have h3 := explicitSection_length counts track_template gap track_has_items
  rw [append4_getElem?_sec4 _ (by rw [h1, h2, h3]; omega)]
  rw [h1, h2, h3]
  congr 1
  omega

theorem neg_offset_last (len neg : ℕ) (hlen : 0 < len) (hneg : 0 < neg) :
    (len - neg % len + (neg - 1)) % len = len - 1 := by
  have hd := Nat.div_add_mod neg len
  have hr : neg % len < len := Nat.mod_lt _ hlen
  have key : len - neg % len + (neg - 1) = (len - 1) + len * (neg / len) := by
    omega
  rw [key, Nat.add_mul_mod_self_left, Nat.mod_eq_of_lt (by omega)]

/-- C7: implicit tracks are sized by cycling `auto_tracks` — the positive
implicit tracks from the start of the list with no offset, the negative
implicit tracks starting at offset
`auto_tracks.length - (negative_implicit % auto_tracks.length)`, so that the
implicit track immediately preceding the explicit grid uses the last entry
of the cycle; when `auto_tracks` is empty a single implicit `auto`
definition is used instead. -/
theorem implicit_track_cycling_offsets (buffer : List GridTrack)
    (counts : TrackCounts) (track_template : List TrackSizingFunction)
    (auto_tracks : List NonRepeatedTrackSizingFunction)
    (gap : LengthPercentage) (track_has_items : ℕ → Bool) :
    (auto_tracks ≠ [] →
      (∀ j, j < counts.negative_implicit →
        (initialize_grid_tracks buffer counts track_template auto_tracks gap
          track_has_items)[1 + 2 * j]?
          = some (GridTrack.new
            (auto_tracks.getD
              ((auto_tracks.length - counts.negative_implicit % auto_tracks.length + j)
                % auto_tracks.length) .AUTO).min_sizing_function
            (auto_tracks.getD
              ((auto_tracks.length - counts.negative_implicit % auto_tracks.length + j)
                % auto_tracks.length) .AUTO).max_sizing_function))
      ∧ (∀ j, j < counts.positive_implicit →
        (initialize_grid_tracks buffer counts track_template auto_tracks gap
          track_has_items)[1 + 2 * (counts.negative_implicit
            + emittedExplicitCount counts track_template) + 2 * j]?
          = some (GridTrack.new
            (auto_tracks.getD (j % auto_tracks.length) .AUTO).min_sizing_function
            (auto_tracks.getD (j % auto_tracks.length) .AUTO).max_sizing_function))
      ∧ (0 < counts.negative_implicit →
        (initialize_grid_tracks buffer counts track_template auto_tracks gap
          track_has_items)[1 + 2 * (counts.negative_implicit - 1)]?
          = some (GridTrack.new
            (auto_tracks.getD (auto_tracks.length - 1) .AUTO).min_sizing_function
            (auto_tracks.getD (auto_tracks.length - 1) .AUTO).max_sizing_function)))
    ∧ (auto_tracks = [] →
      (∀ j, j < counts.negative_implicit →
        (initialize_grid_tracks buffer counts track_template auto_tracks gap
          track_has_items)[1 + 2 * j]?
          = some (GridTrack.new .Auto .Auto))
      ∧ (∀ j, j < counts.positive_implicit →
        (initialize_grid_tracks buffer counts track_template auto_tracks gap
          track_has_items)[1 + 2 * (counts.negative_implicit
            + emittedExplicitCount counts track_template) + 2 * j]?
          = some (GridTrack.new .Auto .Auto))) := by
  constructor
  · intro hauto
    refine ⟨fun j hj => ?_, fun j hj => ?_, fun hnegpos => ?_⟩
    · rw [initialize_grid_tracks_getElem?_interior _ _ _ _ _ _ _ (by omega)
        (by omega)]
      rw [initialize_grid_tracks_body_getElem?_neg _ _ _ _ _ j hj]
      rw [if_neg (by simp [hauto])]
      exact create_implicit_tracks_getElem? _ _ _ j hj
    · rw [initialize_grid_tracks_getElem?_interior _ _ _ _ _ _ _ (by omega)
        (by omega)]
      rw [initialize_grid_tracks_body_getElem?_pos]
      rw [if_neg (by simp [hauto])]
      exact create_implicit_tracks_getElem? _ _ _ j hj
    · rw [initialize_grid_tracks_getElem?_interior _ _ _ _ _ _ _ (by omega)
        (by omega)]
      rw [initialize_grid_tracks_body_getElem?_neg _ _ _ _ _
        (counts.negative_implicit - 1) (by omega)]
      rw [if_neg (by simp [hauto])]
      rw [create_implicit_tracks_getElem? _ _ _ (counts.negative_implicit - 1)
        (by omega)]
      rw [neg_offset_last auto_tracks.length counts.negative_implicit
        (List.length_pos.mpr hauto) hnegpos]
  · intro hauto
    subst hauto
    refine ⟨fun j hj => ?_, fun j hj => ?_⟩
    · rw [initialize_grid_tracks_getElem?_interior _ _ _ _ _ _ _ (by omega)
        (by omega)]
      rw [initialize_grid_tracks_body_getElem?_neg _ _ _ _ _ j hj]
      simp only [List.isEmpty_nil, ite_true]
      exact create_implicit_tracks_getElem? _ _ _ j hj
    · rw [initialize_grid_tracks_getElem?_interior _ _ _ _ _ _ _ (by omega)
        (by omega)]
      rw [initialize_grid_tracks_body_getElem?_pos]
      simp only [List.isEmpty_nil, ite_true]
      exact create_implicit_tracks_getElem? _ _ _ j hj

/-- Witness for C7 at the spec's own scenario (§8 item 6): with three
negative implicit tracks and `auto_tracks = [auto, 100px]`, the implicit
track immediately preceding the explicit grid (buffer position 5) is the
100px track — the last entry of the cycle. -/
theorem implicit_track_cycling_offsets_witness :
    (initialize_grid_tracks [] ⟨3, 3, 3⟩
      [.Single ⟨.Fixed (.Length 100), .Fixed (.Length 100)⟩,
       .Single ⟨.Fixed (.Length 100), .Fraction 2⟩,
       .Single ⟨.Auto, .Fraction 1⟩]
      [NonRepeatedTrackSizingFunction.AUTO,
       ⟨.Fixed (.Length 100), .Fixed (.Length 100)⟩]
      (.Length 20) (fun _ => false))[1 + 2 * (3 - 1)]?
      = some (GridTrack.new (.Fixed (.Length 100)) (.Fixed (.Length 100))) :=
  ((implicit_track_cycling_offsets [] ⟨3, 3, 3⟩
    [.Single ⟨.Fixed (.Length 100), .Fixed (.Length 100)⟩,
     .Single ⟨.Fixed (.Length 100), .Fraction 2⟩,
     .Single ⟨.Auto, .Fraction 1⟩]
    [NonRepeatedTrackSizingFunction.AUTO,
     ⟨.Fixed (.Length 100), .Fixed (.Length 100)⟩]
    (.Length 20) (fun _ => false)).1 (by simp)).2.2 (by decide)

theorem sum_entryTrackCount_no_auto (counts : TrackCounts) (tlen : ℕ)
    (template : List TrackSizingFunction)
    (hno : ∀ e ∈ template, e.is_auto_repetition = false) :
    (template.map (entryTrackCount counts tlen)).sum
      = (template.map fun track_def => match track_def with
          | .Single _ => 1
          | .Repeat (.Count count) tracks => count * tracks.length
          | .Repeat .AutoFill _ => 0
          | .Repeat .AutoFit _ => 0).sum := by
  induction template with
  | nil => rfl
  | cons e rest ih =>
    have he := hno e (List.mem_cons_self e rest)
    have ihr := ih fun x hx => hno x (List.mem_cons_of_mem e hx)
    cases e with
    | Single sf => simp only [List.map_cons, List.sum_cons, entryTrackCount, ihr]
    | Repeat rep rts =>
      cases rep with
      | Count n =>
        simp only [List.map_cons, List.sum_cons, entryTrackCount, ihr]
        ring_nf
      | AutoFill => simp [TrackSizingFunction.is_auto_repetition] at he
      | AutoFit => simp [TrackSizingFunction.is_auto_repetition] at he

theorem sum_entryTrackCount_singles (counts : TrackCounts) (tlen : ℕ)
    (template : List TrackSizingFunction)
    (hall : ∀ e ∈ template, ∃ sf, e = .Single sf) :
    (template.map (entryTrackCount counts tlen)).sum = template.length := by
  induction template with
  | nil => rfl
  | cons e rest ih =>
    obtain ⟨sf, rfl⟩ := hall e (List.mem_cons_self e rest)
    have ihr := ih fun x hx => hall x (List.mem_cons_of_mem _ hx)
    simp [entryTrackCount, ihr]
    omega

theorem filter_auto_cons_false {e : TrackSizingFunction}
    (template : List TrackSizingFunction) (he : e.is_auto_repetition = false) :
    ((e :: template).filter fun td => td.is_auto_repetition)
      = template.filter fun td => td.is_auto_repetition := by
  simp [List.filter_cons, he]

theorem filter_auto_cons_true {e : TrackSizingFunction}
    (template : List TrackSizingFunction) (he : e.is_auto_repetition = true) :
    ((e :: template).filter fun td => td.is_auto_repetition)
      = e :: template.filter fun td => td.is_auto_repetition := by
  simp [List.filter_cons, he]

theorem no_auto_of_filter_nil (template : List TrackSizingFunction)
    (h : (template.filter fun td => td.is_auto_repetition).length = 0) :
    ∀ e ∈ template, e.is_auto_repetition = false := by
  intro e he
  by_contra hc
  have hmem : e ∈ template.filter fun td => td.is_auto_repetition :=
    List.mem_filter.mpr ⟨he, by simpa using hc⟩
  rw [List.length_eq_zero.mp h] at hmem
  simp at hmem

theorem sum_entryTrackCount_one_auto (counts : TrackCounts) (tlen : ℕ)
    (template : List TrackSizingFunction)
    (hone : (template.filter fun td => td.is_auto_repetition).length = 1)
    (hsingle : ∀ e ∈ template, e.is_auto_repetition = false → ∃ sf, e = .Single sf)
    (hnoempty : ∀ rep, TrackSizingFunction.Repeat rep [] ∈ template → False) :
    (template.map (entryTrackCount counts tlen)).sum
      = (template.length - 1) + (counts.explicit - (tlen - 1)) := by
  induction template with
  | nil => simp at hone
  | cons e rest ih =>
    by_cases hea : e.is_auto_repetition
    · have hrest0 : (rest.filter fun td => td.is_auto_repetition).length = 0 := by
        rw [filter_auto_cons_true rest hea] at hone
        simpa using hone
      have hrestall : ∀ x ∈ rest, ∃ sf, x = .Single sf := fun x hx =>
        hsingle x (List.mem_cons_of_mem e hx)
          (no_auto_of_filter_nil rest hrest0 x hx)
      have hsum := sum_entryTrackCount_singles counts tlen rest hrestall
      cases e with
      | Single sf => simp [TrackSizingFunction.is_auto_repetition] at hea
      | Repeat rep rts =>
        have hrts : rts.isEmpty = false := by
          cases rts with
          | nil => exact absurd (List.mem_cons_self _ rest) (fun h => hnoempty rep h)
          | cons a l => rfl
        cases rep with
        | Count n => simp [TrackSizingFunction.is_auto_repetition] at hea
        | AutoFill =>
          simp only [List.map_cons, List.sum_cons, entryTrackCount, hrts,
            Bool.false_eq_true, if_false, hsum, auto_repeated_track_count,
            List.length_cons]
          omega
        | AutoFit =>
          simp only [List.map_cons, List.sum_cons, entryTrackCount, hrts,
            Bool.false_eq_true, if_false, hsum, auto_repeated_track_count,
            List.length_cons]
          omega
    · have he : e.is_auto_repetition = false := by simpa using hea
      obtain ⟨sf, rfl⟩ := hsingle e (List.mem_cons_self e rest) he
      have hone2 : (rest.filter fun td => td.is_auto_repetition).length = 1 := by
        rw [filter_auto_cons_false rest he] at hone
        exact hone
      have ihr := ih hone2
        (fun x hx h => hsingle x (List.mem_cons_of_mem _ hx) h)
        (fun rep h => hnoempty rep (List.mem_cons_of_mem _ h))
      have hrne : rest ≠ [] := by
        intro h
        rw [h] at hone2
        simp at hone2
      have hrpos : 0 < rest.length := List.length_pos.mpr hrne
      simp only [List.map_cons, List.sum_cons, entryTrackCount, ihr,
        List.length_cons]
      omega

theorem resolver_sum_singles (template : List TrackSizingFunction)
    (hall : ∀ e ∈ template, ∃ sf, e = .Single sf) :
    (template.map fun track_def => match track_def with
      | .Single _ => 1
      | .Repeat (.Count count) tracks => count * tracks.length
      | .Repeat .AutoFill _ => 0
      | .Repeat .AutoFit _ => 0).sum = template.length := by
  induction template with
  | nil => rfl
  | cons e rest ih =>
    obtain ⟨sf, rfl⟩ := hall e (List.mem_cons_self e rest)
    have ihr := ih fun x hx => hall x (List.mem_cons_of_mem _ hx)
    simp only [List.map_cons, List.sum_cons, List.length_cons, ihr]
    omega

theorem resolver_sum_one_auto (template : List TrackSizingFunction)
    (hone : (template.filter fun td => td.is_auto_repetition).length = 1)
    (hsingle : ∀ e ∈ template, e.is_auto_repetition = false → ∃ sf, e = .Single sf) :
    (template.map fun track_def => match track_def with
      | .Single _ => 1
      | .Repeat (.Count count) tracks => count * tracks.length
      | .Repeat .AutoFill _ => 0
      | .Repeat .AutoFit _ => 0).sum = template.length - 1 := by
  induction template with
  | nil => simp at hone
  | cons e rest ih =>
    by_cases hea : e.is_auto_repetition
    · have hrest0 : (rest.filter fun td => td.is_auto_repetition).length = 0 := by
        rw [filter_auto_cons_true rest hea] at hone
        simpa using hone
      have hrestall : ∀ x ∈ rest, ∃ sf, x = .Single sf := fun x hx =>
        hsingle x (List.mem_cons_of_mem e hx)
          (no_auto_of_filter_nil rest hrest0 x hx)
      have hsumr := resolver_sum_singles rest hrestall
      cases e with
      | Single sf => simp [TrackSizingFunction.is_auto_repetition] at hea
      | Repeat rep rts =>
        cases rep with
        | Count n => simp [TrackSizingFunction.is_auto_repetition] at hea
        | AutoFill =>
          simp only [List.map_cons, List.sum_cons, List.length_cons, hsumr]
          omega
        | AutoFit =>
          simp only [List.map_cons, List.sum_cons, List.length_cons, hsumr]
          omega
    · have he : e.is_auto_repetition = false := by simpa using hea
      obtain ⟨sf, rfl⟩ := hsingle e (List.mem_cons_self e rest) he
      have hone2 : (rest.filter fun td => td.is_auto_repetition).length = 1 := by
        rw [filter_auto_cons_false rest he] at hone
        exact hone
      have ihr := ih hone2 fun x hx h => hsingle x (List.mem_cons_of_mem _ hx) h
      have hrne : rest ≠ [] := by
        intro h
        rw [h] at hone2
        simp at hone2
      have hrpos : 0 < rest.length := List.length_pos.mpr hrne
      simp only [List.map_cons, List.sum_cons, List.length_cons, ihr]
      omega

theorem emitted_eq_explicit (counts : TrackCounts) (style : GridAxisStyle)
    (template : List TrackSizingFunction) (inner_container_size : Option ℚ)
    (resolve_calc_value : CalcResolver)
    (hmatch : counts.explicit = compute_explicit_grid_size_in_axis style
      template inner_container_size resolve_calc_value)
    (hsingle : (∃ e ∈ template, e.is_auto_repetition = true) →
      ∀ e ∈ template, e.is_auto_repetition = false → ∃ sf, e = .Single sf) :
    emittedExplicitCount counts template = counts.explicit := by
  by_cases hexp : counts.explicit > 0
  swap
  · unfold emittedExplicitCount
    rw [if_neg hexp]
    omega
  unfold emittedExplicitCount
  rw [if_pos hexp]
  simp only [compute_explicit_grid_size_in_axis] at hmatch
  by_cases hemp : template.isEmpty = true
  · rw [if_pos hemp] at hmatch
    omega
  rw [if_neg hemp] at hmatch
  by_cases hany : (template.any fun track_def => match track_def with
      | .Single _ => false
      | .Repeat _ tracks => tracks.isEmpty) = true
  · rw [if_pos hany] at hmatch
    omega
  rw [if_neg hany] at hmatch
  have hany2 : (template.any fun track_def => match track_def with
      | .Single _ => false
      | .Repeat _ tracks => tracks.isEmpty) = false := by simpa using hany
  have hnoemp : ∀ rep, TrackSizingFunction.Repeat rep [] ∈ template → False := by
    intro rep hmem
    have hf := List.any_eq_false.mp hany2 _ hmem
    simp at hf
  by_cases h0 : (template.filter fun td => td.is_auto_repetition).length = 0
  · rw [if_neg (by simp [h0])] at hmatch
    rw [if_pos (by simp [h0])] at hmatch
    rw [sum_entryTrackCount_no_auto counts template.length template
      (no_auto_of_filter_nil template h0)]
    omega
  · by_cases hv : ((template.filter fun td => td.is_auto_repetition).length = 1
        ∧ (template.all fun track_def => match track_def with
          | .Single sizing_function => sizing_function.has_fixed_component
          | .Repeat _ tracks => tracks.all fun sizing_function =>
              sizing_function.has_fixed_component) = true)
    · obtain ⟨h1, hall⟩ := hv
      rw [if_neg (by simp [h1, hall])] at hmatch
      rw [if_neg (by simp [h0])] at hmatch
      have hex : ∃ e ∈ template, e.is_auto_repetition = true := by
        have hpos : 0 < (template.filter fun td => td.is_auto_repetition).length := by
          omega
        obtain ⟨e, he⟩ := List.exists_mem_of_length_pos hpos
        exact ⟨e, (List.mem_filter.mp he).1, (List.mem_filter.mp he).2⟩
      have hsing := hsingle hex
      have hsum1 := sum_entryTrackCount_one_auto counts template.length template
        h1 hsing hnoemp
      have hsum2 := resolver_sum_one_auto template h1 hsing
      rw [hsum2] at hmatch
      rw [hsum1]
      omega
    · have hB : (((template.filter fun td => td.is_auto_repetition).length == 1)
          && template.all fun track_def => match track_def with
            | .Single sizing_function => sizing_function.has_fixed_component
            | .Repeat _ tracks => tracks.all fun sizing_function =>
                sizing_function.has_fixed_component) = false := by
        by_cases h1 : (template.filter fun td => td.is_auto_repetition).length = 1
        · have hallf : (template.all fun track_def => match track_def with
              | .Single sizing_function => sizing_function.has_fixed_component
              | .Repeat _ tracks => tracks.all fun sizing_function =>
                  sizing_function.has_fixed_component) = false := by
            cases hq : (template.all fun track_def => match track_def with
              | .Single sizing_function => sizing_function.has_fixed_component
              | .Repeat _ tracks => tracks.all fun sizing_function =>
                  sizing_function.has_fixed_component)
            · rfl
            · exact absurd ⟨h1, hq⟩ hv
          simp [hallf]
        · simp [h1]
      rw [if_pos (by simp [h0, hB])] at hmatch
      omega

theorem TrackGutterPairs_nil : TrackGutterPairs [] := by
  constructor
  · rfl
  · intro i hi
    simp at hi

theorem TrackGutterPairs_append {a b : List GridTrack}
    (ha : TrackGutterPairs a) (hb : TrackGutterPairs b) :
    TrackGutterPairs (a ++ b) := by
  obtain ⟨hae, hak⟩ := ha
  obtain ⟨hbe, hbk⟩ := hb
  constructor
  · simp [List.length_append]
    omega
  · intro i hi
    rw [List.length_append] at hi
    by_cases hlt : i < a.length
    · rw [List.getElem?_append_left hlt]
      exact hak i hlt
    · rw [List.getElem?_append_right (by omega)]
      have hparity : (i - a.length) % 2 = i % 2 := by omega
      rw [hbk (i - a.length) (by omega), hparity]

theorem TrackGutterPairs_pairBlocks (f g : ℕ → GridTrack) (l : List ℕ)
    (hf : ∀ a, (f a).kind = GridTrackKind.Track)
    (hg : ∀ a, (g a).kind = GridTrackKind.Gutter) :
    TrackGutterPairs (pairBlocks f g l) := by
  constructor
  · rw [pairBlocks_length]
    omega
  · intro i hi
    rw [pairBlocks_length] at hi
    by_cases hpar : i % 2 = 0
    · have hieq : i = 2 * (i / 2) := by omega
      rw [hieq, pairBlocks_getElem?_even]
      have hjlt : i / 2 < l.length := by omega
      rw [List.getElem?_eq_getElem hjlt]
      simp only [Option.map_some, Option.map_map]
      rw [if_pos (by omega)]
      simp [hf]
    · have hieq : i = 2 * (i / 2) + 1 := by omega
      rw [hieq, pairBlocks_getElem?_odd]
      have hjlt : i / 2 < l.length := by omega
      rw [List.getElem?_eq_getElem hjlt]
      simp only [Option.map_some, Option.map_map]
      rw [if_neg (by omega)]
      simp [hg]

theorem TrackGutterPairs_two {t u : GridTrack}
    (ht : t.kind = GridTrackKind.Track) (hu : u.kind = GridTrackKind.Gutter) :
    TrackGutterPairs [t, u] := by
  constructor
  · simp
  · intro i hi
    match i, hi with
    | 0, _ => simp [ht]
    | 1, _ => simp [hu]

theorem entryTracks_TrackGutterPairs (counts : TrackCounts)
    (template_length : ℕ) (gap : LengthPercentage) (track_has_items : ℕ → Bool)
    (current_track_index : ℕ) (entry : TrackSizingFunction) :
    TrackGutterPairs (entryTracks counts template_length gap track_has_items
      current_track_index entry) := by
  cases entry with
  | Single sf => exact TrackGutterPairs_two rfl rfl
  | Repeat rep rts =>
    cases rep with
    | Count n =>
      exact TrackGutterPairs_pairBlocks _ _ _ (fun a => rfl) (fun a => rfl)
    | AutoFill =>
      show TrackGutterPairs (autoRepeatEntryTracks false rts counts
        template_length gap track_has_items current_track_index)
      unfold autoRepeatEntryTracks
      split
      · exact TrackGutterPairs_nil
      · refine TrackGutterPairs_pairBlocks _ _ _ (fun a => ?_) (fun a => ?_) <;>
          dsimp only <;> split <;> rfl
    | AutoFit =>
      show TrackGutterPairs (autoRepeatEntryTracks true rts counts
        template_length gap track_has_items current_track_index)
      unfold autoRepeatEntryTracks
      split
      · exact TrackGutterPairs_nil
      · refine TrackGutterPairs_pairBlocks _ _ _ (fun a => ?_) (fun a => ?_) <;>
          dsimp only <;> split <;> rfl

theorem explicitTracks_TrackGutterPairs (counts : TrackCounts)
    (template_length : ℕ) (gap : LengthPercentage) (track_has_items : ℕ → Bool) :
    ∀ (entries : List TrackSizingFunction) (current_track_index : ℕ),
    TrackGutterPairs (explicitTracks counts template_length gap track_has_items
      entries current_track_index) := by
  intro entries
  induction entries with
  | nil => intro s; exact TrackGutterPairs_nil
  | cons e rest ih =>
    intro s
    exact TrackGutterPairs_append (entryTracks_TrackGutterPairs _ _ _ _ _ _) (ih _)

theorem create_implicit_tracks_TrackGutterPairs (count : ℕ)
    (auto_tracks_iter : ℕ → NonRepeatedTrackSizingFunction)
    (gap : LengthPercentage) :
    TrackGutterPairs (create_implicit_tracks count auto_tracks_iter gap) :=
  TrackGutterPairs_pairBlocks _ _ _ (fun a => rfl) (fun a => rfl)

theorem initialize_grid_tracks_body_alternation (counts : TrackCounts)
    (track_template : List TrackSizingFunction)
    (auto_tracks : List NonRepeatedTrackSizingFunction)
    (gap : LengthPercentage) (track_has_items : ℕ → Bool) :
    ∀ i, i < (initialize_grid_tracks_body counts track_template auto_tracks gap
      track_has_items).length →
    (initialize_grid_tracks_body counts track_template auto_tracks gap
      track_has_items)[i]?.map (fun t => t.kind)
      = some (if i % 2 = 0 then GridTrackKind.Gutter else GridTrackKind.Track) := by
  have hN : TrackGutterPairs (if counts.negative_implicit > 0 then
      if auto_tracks.isEmpty then
        create_implicit_tracks counts.negative_implicit (fun _ => .AUTO) gap
      else
        create_implicit_tracks counts.negative_implicit
          (fun i => auto_tracks.getD
            ((auto_tracks.length - counts.negative_implicit % auto_tracks.length + i)
              % auto_tracks.length) .AUTO) gap
    else []) := by
    split
    · split
      · exact create_implicit_tracks_TrackGutterPairs _ _ _
      · exact create_implicit_tracks_TrackGutterPairs _ _ _
    · exact TrackGutterPairs_nil
  have hE : TrackGutterPairs (if counts.explicit > 0 then
      explicitTracks counts track_template.length gap track_has_items
        track_template counts.negative_implicit
    else []) := by
    split
    · exact explicitTracks_TrackGutterPairs _ _ _ _ _ _
    · exact TrackGutterPairs_nil
  have hP : TrackGutterPairs (if auto_tracks.isEmpty then
      create_implicit_tracks counts.positive_implicit (fun _ => .AUTO) gap
    else
      create_implicit_tracks counts.positive_implicit
        (fun i => auto_tracks.getD (i % auto_tracks.length) .AUTO) gap) := by
    split
    · exact create_implicit_tracks_TrackGutterPairs _ _ _
    · exact create_implicit_tracks_TrackGutterPairs _ _ _
  have hall := TrackGutterPairs_append hN (TrackGutterPairs_append hE hP)
  intro i hi
  simp only [initialize_grid_tracks_body] at hi ⊢
  rw [List.nil_append, List.append_assoc, List.append_assoc] at hi ⊢
  rw [List.singleton_append] at hi ⊢
  cases i with
  | zero => simp [GridTrack.gutter]
  | succ n =>
    simp only [List.getElem?_cons_succ]
    obtain ⟨he, hk⟩ := hall
    rw [hk n (by simp only [List.length_cons] at hi; omega)]
    by_cases hpar : n % 2 = 0
    · rw [if_pos hpar, if_neg (by omega)]
    · rw [if_neg hpar, if_pos (by omega)]

theorem collapseFirst_map_kind (l : List GridTrack) :
    (collapseFirst l).map (fun t => t.kind) = l.map (fun t => t.kind) := by
  cases l <;> rfl

theorem collapseLast_cons_cons (t b : GridTrack) (r : List GridTrack) :
    collapseLast (t :: b :: r) = t :: collapseLast (b :: r) := rfl

theorem collapseLast_map_kind : ∀ l : List GridTrack,
    (collapseLast l).map (fun t => t.kind) = l.map (fun t => t.kind)
  | [] => rfl
  | [_] => rfl
  | t :: b :: r => by
    rw [collapseLast_cons_cons]
    simp only [List.map_cons]
    rw [collapseLast_map_kind (b :: r)]
    simp

theorem initialize_grid_tracks_kindAt (buffer : List GridTrack)
    (counts : TrackCounts) (track_template : List TrackSizingFunction)
    (auto_tracks : List NonRepeatedTrackSizingFunction)
    (gap : LengthPercentage) (track_has_items : ℕ → Bool) (i : ℕ) :
    (initialize_grid_tracks buffer counts track_template auto_tracks gap
      track_has_items)[i]?.map (fun t => t.kind)
      = (initialize_grid_tracks_body counts track_template auto_tracks gap
        track_has_items)[i]?.map (fun t => t.kind) := by
  unfold initialize_grid_tracks
  rw [← List.getElem?_map, ← List.getElem?_map, collapseLast_map_kind,
    collapseFirst_map_kind]

theorem collapseLast_last_collapsed : ∀ l : List GridTrack, l ≠ [] →
    (collapseLast l)[(collapseLast l).length - 1]?.map
      (fun t => t.collapsed) = some true
  | [], h => absurd rfl h
  | [t], _ => by simp [collapseLast, GridTrack.collapse]
  | t :: b :: r, _ => by
    rw [collapseLast_cons_cons]
    have ih := collapseLast_last_collapsed (b :: r) (by simp)
    have hlen : (collapseLast (b :: r)).length = r.length + 1 := by
      rw [collapseLast_length]
      rfl
    have hidx : (t :: collapseLast (b :: r)).length - 1
        = ((collapseLast (b :: r)).length - 1) + 1 := by
      simp only [List.length_cons, hlen]
      omega
    rw [hidx, List.getElem?_cons_succ]
    exact ih

theorem collapsed_ends (l : List GridTrack) (h : l ≠ []) :
    (collapseLast (collapseFirst l))[0]?.map (fun t => t.collapsed) = some true
    ∧ (collapseLast (collapseFirst l))[(collapseLast (collapseFirst l)).length
        - 1]?.map (fun t => t.collapsed) = some true := by
  constructor
  · cases l with
    | nil => exact absurd rfl h
    | cons t rest =>
      show (collapseLast (t.collapse :: rest))[0]?.map _ = _
      cases rest with
      | nil => simp [collapseLast, GridTrack.collapse]
      | cons b r =>
        rw [collapseLast_cons_cons]
        simp [GridTrack.collapse]
  · apply collapseLast_last_collapsed
    cases l with
    | nil => exact absurd rfl h
    | cons t rest => simp [collapseFirst]

/-- C1 counterexample: the claim fails as stated.  For the template
`[Repeat(Count 2, [10px]), Repeat(AutoFill, [40px])]` with no definite
inner size the Resolver yields `2*1 + 1*1 = 3` explicit tracks, yet the
Materializer emits 2 tracks for the fixed-count repetition plus
`3 - (2 - 1) = 2` tracks for the auto repetition — 4 explicit tracks — so
the buffer holds 9 entries, not `2*(0+3+0)+1 = 7`. -/
theorem materialized_length_invariant_counterexample :
    compute_explicit_grid_size_in_axis
        { size := .Auto, max_size := .Auto, gap := .Length 0 }
        [.Repeat (.Count 2) [{ min := .Fixed (.Length 10), max := .Fixed (.Length 10) }],
         .Repeat .AutoFill [{ min := .Fixed (.Length 40), max := .Fixed (.Length 40) }]]
        none (fun _ _ => 0) = 3
      ∧ (initialize_grid_tracks [] ⟨0, 3, 0⟩
          [.Repeat (.Count 2) [{ min := .Fixed (.Length 10), max := .Fixed (.Length 10) }],
           .Repeat .AutoFill [{ min := .Fixed (.Length 40), max := .Fixed (.Length 40) }]]
          [] (.Length 0) (fun _ => true)).length ≠ 2 * (0 + 3 + 0) + 1 := by
  constructor
  · decide
  · decide

/-- C1 (amended): for every counts value whose explicit field equals the
count the Resolver produced for the same template and context, and
provided that whenever the template contains an auto-repetition every
other entry is a `Single` entry (the counterexample shows the claim fails
when a fixed-count repetition accompanies an auto-repetition), the
Materializer leaves the buffer with exactly
`2*(negative_implicit + explicit + positive_implicit) + 1` entries that
strictly alternate Gutter, Track, Gutter, ..., Gutter — starting and
ending with a Gutter — and the first and last entries are collapsed
regardless of the requested gap. -/
theorem materialized_list_shape (buffer : List GridTrack) (counts : TrackCounts)
    (style : GridAxisStyle) (template : List TrackSizingFunction)
    (inner_container_size : Option ℚ) (resolve_calc_value : CalcResolver)
    (auto_tracks : List NonRepeatedTrackSizingFunction) (gap : LengthPercentage)
    (track_has_items : ℕ → Bool)
    (hmatch : counts.explicit = compute_explicit_grid_size_in_axis style
      template inner_container_size resolve_calc_value)
    (hsingle : (∃ e ∈ template, e.is_auto_repetition = true) →
      ∀ e ∈ template, e.is_auto_repetition = false → ∃ sf, e = .Single sf) :
    ((initialize_grid_tracks buffer counts template auto_tracks gap
      track_has_items).length
      = 2 * (counts.negative_implicit + counts.explicit
        + counts.positive_implicit) + 1)
    ∧ (∀ i, i < (initialize_grid_tracks buffer counts template auto_tracks gap
        track_has_items).length →
      (initialize_grid_tracks buffer counts template auto_tracks gap
        track_has_items)[i]?.map (fun t => t.kind)
        = some (if i % 2 = 0 then GridTrackKind.Gutter else GridTrackKind.Track))
    ∧ ((initialize_grid_tracks buffer counts template auto_tracks gap
        track_has_items)[0]?.map (fun t => t.collapsed) = some true)
    ∧ ((initialize_grid_tracks buffer counts template auto_tracks gap
        track_has_items)[(initialize_grid_tracks buffer counts template
          auto_tracks gap track_has_items).length - 1]?.map
        (fun t => t.collapsed) = some true) := by
  have hE := emitted_eq_explicit counts style template inner_container_size
    resolve_calc_value hmatch hsingle
  have hbody := initialize_grid_tracks_body_length counts template auto_tracks
    gap track_has_items
  have hout := initialize_grid_tracks_length buffer counts template auto_tracks
    gap track_has_items
  have hne : initialize_grid_tracks_body counts template auto_tracks gap
      track_has_items ≠ [] := by
    intro h
    rw [h] at hbody
    simp at hbody
  refine ⟨?_, ?_, ?_, ?_⟩
  · rw [hout, hE]
  · intro i hi
    rw [initialize_grid_tracks_kindAt]
    apply initialize_grid_tracks_body_alternation
    rw [hbody]
    rw [hout] at hi
    omega
  · exact (collapsed_ends _ hne).1
  · exact (collapsed_ends _ hne).2

/-- Witness for the amended C1 at a concrete input: template
`[Repeat(AutoFill, [40px])]` with no definite inner size resolves to one
explicit track; with counts (1, 1, 2) the buffer has `2*(1+1+2)+1 = 9`
entries. -/
theorem materialized_list_shape_witness :
    (initialize_grid_tracks [] ⟨1, 1, 2⟩
      [.Repeat .AutoFill [{ min := .Fixed (.Length 40), max := .Fixed (.Length 40) }]]
      [] (.Length 10) (fun _ => true)).length = 2 * (1 + 1 + 2) + 1 :=
  (materialized_list_shape [] ⟨1, 1, 2⟩
    { size := .Auto, max_size := .Auto, gap := .Length 0 }
    [.Repeat .AutoFill [{ min := .Fixed (.Length 40), max := .Fixed (.Length 40) }]]
    none (fun _ _ => 0) [] (.Length 10) (fun _ => true)
    (by decide)
    (fun _ => by
      intro e he hf
      simp only [List.mem_singleton] at he
      subst he
      simp [TrackSizingFunction.is_auto_repetition] at hf)).1

theorem findSome?_append_of_none {α β : Type} (f : α → Option β) :
    ∀ (l₁ l₂ : List α), (∀ e ∈ l₁, f e = none) →
    (l₁ ++ l₂).findSome? f = l₂.findSome? f
  | [], _, _ => rfl
  | a :: l₁, l₂, h => by
    simp only [List.cons_append, List.findSome?_cons]
    rw [h a (List.mem_cons_self a l₁)]
    exact findSome?_append_of_none f l₁ l₂
      fun e he => h e (List.mem_cons_of_mem a he)

/-- C3: for every valid template containing exactly one auto-repeat entry
(decomposed as `pre ++ [Repeat k rts] ++ post` with no other
auto-repetitions, every sizing function fixed, and no empty repetition),
the Resolver returns `fixedCount + repLen * R` with `R = 1` when the inner
container size is absent, and — when the first chunk fits —
`R = ⌊extra⌋ + 1` when the container's preferred or maximum size is
definite and `R = ⌈extra⌉ + 1` otherwise, where
`extra = (inner - firstChunk) / fitSpace` and
`fitSpace = perRepSpace + gap * repLen`. -/
theorem resolver_auto_repeat_formula (style : GridAxisStyle)
    (pre post : List TrackSizingFunction) (k : GridTrackRepetition)
    (rts : List NonRepeatedTrackSizingFunction)
    (resolve_calc_value : CalcResolver)
    (hk : k = .AutoFill ∨ k = .AutoFit)
    (hpre : ∀ e ∈ pre, e.is_auto_repetition = false)
    (hpost : ∀ e ∈ post, e.is_auto_repetition = false)
    (hfix : ∀ sf ∈ templateSizingFunctions (pre ++ [.Repeat k rts] ++ post),
      sf.has_fixed_component = true)
    (hnoempty : ∀ rep, TrackSizingFunction.Repeat rep []
      ∈ pre ++ [.Repeat k rts] ++ post → False) :
    (compute_explicit_grid_size_in_axis style (pre ++ [.Repeat k rts] ++ post)
        none resolve_calc_value
      = specFixedCount (pre ++ [.Repeat k rts] ++ post) + rts.length * 1)
    ∧ ∀ s : ℚ,
      specFirstChunk style (pre ++ [.Repeat k rts] ++ post) rts s
          resolve_calc_value ≤ s →
      compute_explicit_grid_size_in_axis style (pre ++ [.Repeat k rts] ++ post)
          (some s) resolve_calc_value
        = specFixedCount (pre ++ [.Repeat k rts] ++ post) + rts.length *
          (if specSizeIsMaximum style (some s) resolve_calc_value then
            (Int.floor (specExtra style (pre ++ [.Repeat k rts] ++ post) rts s
              resolve_calc_value)).toNat + 1
          else
            (Int.ceil (specExtra style (pre ++ [.Repeat k rts] ++ post) rts s
              resolve_calc_value)).toNat + 1) := by
  have hka : TrackSizingFunction.is_auto_repetition (.Repeat k rts) = true := by
    rcases hk with rfl | rfl <;> rfl
  have hemp : (pre ++ [TrackSizingFunction.Repeat k rts] ++ post).isEmpty
      = false := by
    simp [List.isEmpty_iff]
  have hanyf : ((pre ++ [TrackSizingFunction.Repeat k rts] ++ post).any
      fun track_def => match track_def with
      | .Single _ => false
      | .Repeat _ tracks => tracks.isEmpty) = false := by
    rw [List.any_eq_false]
    intro e he
    cases e with
    | Single _ => simp
    | Repeat rep tracks =>
      cases tracks with
      | nil => exact (hnoempty rep he).elim
      | cons a l => simp
  have hfpre : pre.filter (fun track_def => track_def.is_auto_repetition)
      = [] :=
    List.filter_eq_nil_iff.mpr fun e he => by simp [hpre e he]
  have hfpost : post.filter (fun track_def => track_def.is_auto_repetition)
      = [] :=
    List.filter_eq_nil_iff.mpr fun e he => by simp [hpost e he]
  have hfilter : ((pre ++ [TrackSizingFunction.Repeat k rts] ++ post).filter
      fun track_def => track_def.is_auto_repetition).length = 1 := by
    rw [List.filter_append, List.filter_append, hfpre, hfpost]
    simp [List.filter_cons, hka]
  have hall : ((pre ++ [TrackSizingFunction.Repeat k rts] ++ post).all
      fun track_def => match track_def with
      | .Single sizing_function => sizing_function.has_fixed_component
      | .Repeat _ tracks =>
        tracks.all fun sizing_function => sizing_function.has_fixed_component)
      = true := by
    rw [template_all_fixed_eq]
    exact List.all_eq_true.mpr hfix
  have hfind : ((pre ++ [TrackSizingFunction.Repeat k rts] ++ post).findSome?
      fun def_ => match def_ with
      | .Single _ => none
      | .Repeat (.Count _) _ => none
      | .Repeat .AutoFill tracks => some tracks
      | .Repeat .AutoFit tracks => some tracks) = some rts := by
    rw [List.append_assoc]
    rw [findSome?_append_of_none _ pre _ (by
      intro e he
      cases e with
      | Single _ => rfl
      | Repeat rep tracks =>
        cases rep with
        | Count n => rfl
        | AutoFill =>
          have := hpre _ he
          simp [TrackSizingFunction.is_auto_repetition] at this
        | AutoFit =>
          have := hpre _ he
          simp [TrackSizingFunction.is_auto_repetition] at this)]
    rcases hk with rfl | rfl <;> simp [List.findSome?_cons]
  constructor
  · simp only [compute_explicit_grid_size_in_axis]
    rw [hemp, hanyf, hfilter, hall, hfind]
    simp only [Bool.false_eq_true, if_false, Option.getD_some]
    rw [if_neg (by decide), if_neg (by decide)]
    simp only [specFixedCount]
  · intro s hfits
    simp only [compute_explicit_grid_size_in_axis]
    rw [hemp, hanyf, hfilter, hall, hfind]
    simp only [Bool.false_eq_true, if_false, Option.getD_some]
    rw [if_neg (by decide), if_neg (by decide)]
    simp only [specFirstChunk, specNonRepSpace, specPerRepSpace, specGap,
      specFixedCount] at hfits
    rw [if_neg (not_lt.mpr hfits)]
    simp only [specSizeIsMaximum, specExtra, specFitSpace, specFirstChunk,
      specNonRepSpace, specPerRepSpace, specGap, specFixedCount]
    rw [mul_comm (style.gap.resolve_or_zero (some s) resolve_calc_value)
      ((rts.length : ℚ))]

/-- Witness for C3 at a concrete input: the template
`[Repeat(AutoFill, [40px])]` with no definite inner size resolves to
`fixedCount + repLen * 1`. -/
theorem resolver_auto_repeat_formula_witness :
    compute_explicit_grid_size_in_axis
        { size := .Auto, max_size := .Auto, gap := .Length 0 }
        ([] ++ [.Repeat .AutoFill
          [{ min := .Fixed (.Length 40), max := .Fixed (.Length 40) }]] ++ [])
        none (fun _ _ => 0)
      = specFixedCount ([] ++ [.Repeat .AutoFill
          [{ min := .Fixed (.Length 40), max := .Fixed (.Length 40) }]] ++ [])
        + 1 * 1 :=
  (resolver_auto_repeat_formula
    { size := .Auto, max_size := .Auto, gap := .Length 0 }
    [] [] .AutoFill
    [{ min := .Fixed (.Length 40), max := .Fixed (.Length 40) }]
    (fun _ _ => 0)
    (Or.inl rfl)
    (fun e he => by simp at he)
    (fun e he => by simp at he)
    (fun sf hsf => by
      simp [templateSizingFunctions] at hsf
      subst hsf
      rfl)
    (fun rep h => by simp at h)).1
